import Mathlib

/-!
# Anerops: the RealSense actor

A shallow embedding of `Source/Anerops/RealSenseActor.{h,cpp}`: the landmark
structure, the static lookup `getLandmarkById`, the start-up routine
`BeginPlay` and the per-frame routine `Tick`, followed by the properties
proved about them.

Conventions of the embedding.

* The C++ `float` is a type parameter `R` with the handful of operations the
  source applies to it (`FloatOps`); nothing is assumed about them, so every
  statement holds for IEEE floats as for any other interpretation. The
  concrete evaluations use `Int` coordinates.
* A C++ `int` is an `Int`; the only arithmetic on one is `identifier - 1`,
  which is checked before it is used as an index.
* A pointer to an SDK object whose content the actor never reads is a `Bool`
  (`true`: non-NULL). A smoother pointer is an `Option` of the smoother state.
* Dereferencing NULL and indexing a `std::vector` out of range have no defined
  behaviour in C++: the embedded routine then yields no state.
* Logging and debug drawing have no effect on the actor and are left out.
* The alert handler is written by the SDK through its callback, outside the
  routines embedded here; inside a tick it changes only through the calls the
  tick itself makes on it.
-/

namespace Anerops

/-! ## Data model -/

/-- Operations on the C++ `float` that the actor uses: the literal `0`, the
literal `1000.f`, multiplication and the comparison `x != 0`. -/
class FloatOps (R : Type) where
  zero : R
  thousand : R
  mul : R → R → R
  neZero : R → Bool

/-- Integer coordinates, used to evaluate the definitions on concrete inputs. -/
instance instFloatOpsInt : FloatOps Int where
  zero := 0
  thousand := 1000
  mul := fun a b => a * b
  neZero := fun a => decide (a ≠ 0)

/-- The engine vector `FVector`. -/
structure FVector (R : Type) where
  X : R
  Y : R
  Z : R
deriving DecidableEq, Repr

/-- The engine quaternion `FQuat`. -/
structure FQuat (R : Type) where
  X : R
  Y : R
  Z : R
  W : R
deriving DecidableEq, Repr

/-- The product `FVector * float`: every component is multiplied by the factor. -/
def FVector.scale {R : Type} [FloatOps R] (v : FVector R) (k : R) : FVector R :=
  ⟨FloatOps.mul v.X k, FloatOps.mul v.Y k, FloatOps.mul v.Z k⟩

/-- The struct `FLandmark` of `RealSenseActor.h`. -/
structure FLandmark (R : Type) where
  location : FVector R
  identifier : Int
deriving DecidableEq, Repr

/-- The constructor `FLandmark::FLandmark()`: location `FVector(0,0,0)`,
identifier `0`. -/
def FLandmark.ctor {R : Type} [FloatOps R] : FLandmark R :=
  { location := ⟨FloatOps.zero, FloatOps.zero, FloatOps.zero⟩, identifier := 0 }

/-! ## `getLandmarkById` -/

/-- The `for` loop of `getLandmarkById`, entered at counter `i` with the
elements from position `i` on still to visit and `index` still `0`: the loop
breaks with `index = i` at the first element whose identifier is `id`, and
leaves `index` at `0` when it runs off the end. -/
def getLandmarkById.scan {R : Type} (id : Int) : List (FLandmark R) → Nat → Nat
  | [], _ => 0
  | l :: rest, i => if l.identifier = id then i else getLandmarkById.scan id rest (i + 1)

/-- The static method `ARealSenseActor::getLandmarkById`. The element access
`landmarks[index]` is always in range (`getLandmarkById.scan_lt`), so the
fallback of `getD` is never taken. -/
def getLandmarkById {R : Type} [FloatOps R] (landmarks : List (FLandmark R)) (id : Int) :
    FLandmark R :=
  let length := landmarks.length
  if length > 0 then
    let index := getLandmarkById.scan id landmarks 0
    landmarks.getD index FLandmark.ctor
  else
    FLandmark.ctor

/-! ## SDK data read by the actor -/

/-- The SDK point `Point3DF32`. -/
structure Point3DF32 (R : Type) where
  x : R
  y : R
  z : R
deriving DecidableEq, Repr

/-- The SDK quaternion `FaceData::PoseQuaternion`. -/
structure PoseQuaternion (R : Type) where
  x : R
  y : R
  z : R
  w : R
deriving DecidableEq, Repr

/-- The SDK record `FaceData::LandmarkPoint`, reduced to the two fields the
actor reads: `source.alias` and `world`. -/
structure LandmarkPoint (R : Type) where
  source_alias : Int
  world : Point3DF32 R
deriving DecidableEq, Repr

/-- The status value `STATUS_NO_ERROR` of the SDK. -/
def STATUS_NO_ERROR : Int := 0

/-- What the program is built on but `RealSenseActor.{h,cpp}` do not contain:
the constant `Constantes::NUM_LANDMARKS` and the two conversions of
`Utilities.h`, and the SDK method `Smoother3D::SmoothValue`, which returns the
smoothed point and changes the smoother (its state is the type `S`). They are
parameters of the embedding. -/
structure Deps (R S : Type) where
  NUM_LANDMARKS : Int
  RsToUnrealVector : Point3DF32 R → FVector R
  RsToUnrealQuat : PoseQuaternion R → FQuat R
  SmoothValue : S → Point3DF32 R → Point3DF32 R × S

/-- Modelled from the spec: the class `FaceTrackingAlertHandler`, whose header
is not among the sources. It holds the two flags the tick mirrors: the
"should-hide-overlay" flag and the "default-capture-requested" flag. -/
structure FaceTrackingAlertHandler where
  maskHidden : Bool
  captureDefault : Bool
deriving DecidableEq, Repr

/-- Modelled from the spec: the accessor `shouldMaskBeHidden()` of the alert
handler returns the "should-hide-overlay" flag. -/
def FaceTrackingAlertHandler.shouldMaskBeHidden (h : FaceTrackingAlertHandler) : Bool :=
  h.maskHidden

/-- Modelled from the spec: the accessor `shouldCaptureDefault()` of the alert
handler returns the "default-capture-requested" flag. -/
def FaceTrackingAlertHandler.shouldCaptureDefault (h : FaceTrackingAlertHandler) : Bool :=
  h.captureDefault

/-- Modelled from the spec: `resetShouldCaptureDefault()` resets the
"default-capture-requested" flag on the handler (consume-once semantics). -/
def FaceTrackingAlertHandler.resetShouldCaptureDefault (h : FaceTrackingAlertHandler) :
    FaceTrackingAlertHandler :=
  { h with captureDefault := false }

/-! ## The actor -/

/-- The members of `ARealSenseActor`. The published properties come first, then
the editor toggles, then the private SDK handles. -/
structure ARealSenseActor (R S : Type) where
  m_landmarks : List (FLandmark R)
  m_headLocation : FVector R
  m_headRotation : FQuat R
  m_shouldMaskBeHidden : Bool
  m_shouldCaptureDefault : Bool
  m_showLandmarks : Bool
  m_stream : Bool
  m_smoothData : Bool
  m_hideOnLost : Bool
  m_session : Bool
  m_manager : Bool
  m_status : Int
  m_faceAnalyzer : Bool
  m_outputData : Bool
  m_config : Bool
  m_reader : Bool
  m_headSmoother : Option S
  m_landmarkSmoothers : List (Option S)
  m_alertHandler : FaceTrackingAlertHandler
deriving DecidableEq, Repr

/-- The constructor `ARealSenseActor::ARealSenseActor()` together with the
default member initialisers of the header. The two members neither of them
sets (`m_stream`, `m_shouldCaptureDefault`) and the state of the alert handler
are arguments. -/
def ARealSenseActor.ctor {R S : Type} [FloatOps R] (m_stream m_shouldCaptureDefault : Bool)
    (m_alertHandler : FaceTrackingAlertHandler) : ARealSenseActor R S :=
  { m_landmarks := []
    m_headLocation := ⟨FloatOps.zero, FloatOps.zero, FloatOps.zero⟩
    m_headRotation := ⟨FloatOps.zero, FloatOps.zero, FloatOps.zero, FloatOps.zero⟩
    m_shouldMaskBeHidden := true
    m_shouldCaptureDefault := m_shouldCaptureDefault
    m_showLandmarks := false
    m_stream := m_stream
    m_smoothData := true
    m_hideOnLost := true
    m_session := false
    m_manager := false
    m_status := STATUS_NO_ERROR
    m_faceAnalyzer := false
    m_outputData := false
    m_config := false
    m_reader := false
    m_headSmoother := none
    m_landmarkSmoothers := []
    m_alertHandler := m_alertHandler }

/-! ## `BeginPlay` -/

/-- The call sites of `UKismetSystemLibrary::QuitGame` in `BeginPlay`, named
after the failure each one reports. -/
inductive QuitSite where
  | session
  | manager
  | headSmoother
  | landmarkSmoother
  | enableFace
  | faceAnalyzer
  | streamReader
  | subscribeAlert
  | pipelineInit
deriving DecidableEq, Repr

/-- The answers of the SDK to the calls of `BeginPlay`: for a creation call
whether the object is non-NULL (for a smoother: its state), for the others the
returned status. `CreateLandmarkSmoother i` is the answer to the call made in
round `i` of the loop over the landmarks. -/
structure StartupResponses (S : Type) where
  CreateInstance : Bool
  CreateSenseManager : Bool
  CreateSmootherFactory : Bool
  CreateHeadSmoother : Option S
  CreateLandmarkSmoother : Nat → Option S
  EnableFace : Int
  QueryFace : Bool
  Activate : Bool
  CreateOutput : Bool
  CreateActiveConfiguration : Bool
  SubscribeAlert : Int
  Init : Int

/-- A run of a routine that can request termination: the `QuitGame` requests
issued, in order, and the state reached, or `none` when the run dereferenced a
NULL pointer (from there on the C++ has no defined behaviour). A request does
not stop the routine: `QuitGame` returns and the next statement runs. -/
structure Run (α : Type) where
  quits : List QuitSite
  state : Option α
deriving DecidableEq, Repr

/-- Sequencing of runs: the second part runs from the state the first part
reached, and its requests follow those of the first. -/
def Run.andThen {α β : Type} (r : Run α) (f : α → Run β) : Run β :=
  match r.state with
  | none => ⟨r.quits, none⟩
  | some a => ⟨r.quits ++ (f a).quits, (f a).state⟩

/-- The pattern `if(failed) { UE_LOG(...); QuitGame(...); }`. -/
def Run.quitWhen {α : Type} (failed : Bool) (site : QuitSite) (a : α) : Run α :=
  ⟨if failed then [site] else [], some a⟩

/-- A call through the pointer `p`: undefined when `p` is NULL. -/
def Run.deref {α : Type} (p : Bool) (a : α) : Run α :=
  ⟨[], if p then some a else none⟩

/-- The loop `for(int i = 0; i < Constantes::NUM_LANDMARKS; i++)` of
`BeginPlay`, entered at counter `i` with `remaining` rounds to go: each round
pushes the created smoother and requests termination when the element just
pushed is NULL. -/
def BeginPlay.landmarkSmoothers {R S : Type} (r : StartupResponses S) :
    Nat → Nat → ARealSenseActor R S → Run (ARealSenseActor R S)
  | 0, _, s => ⟨[], some s⟩
  | remaining + 1, i, s =>
    let created := r.CreateLandmarkSmoother i
    let s1 := { s with m_landmarkSmoothers := s.m_landmarkSmoothers ++ [created] }
    (Run.quitWhen created.isNone QuitSite.landmarkSmoother s1).andThen
      (BeginPlay.landmarkSmoothers r remaining (i + 1))

/-- The block `if(m_smoothData) { ... }` of `BeginPlay`. -/
def BeginPlay.smoothers {R S : Type} (d : Deps R S) (r : StartupResponses S)
    (s : ARealSenseActor R S) : Run (ARealSenseActor R S) :=
  if s.m_smoothData then
    (Run.deref s.m_session s).andThen fun s =>
    (Run.deref r.CreateSmootherFactory s).andThen fun s =>
    let s := { s with m_headSmoother := r.CreateHeadSmoother }
    (Run.quitWhen s.m_headSmoother.isNone QuitSite.headSmoother s).andThen fun s =>
    BeginPlay.landmarkSmoothers r d.NUM_LANDMARKS.toNat 0 s
  else
    ⟨[], some s⟩

/-- The method `ARealSenseActor::BeginPlay`. -/
def BeginPlay {R S : Type} (d : Deps R S) (r : StartupResponses S) (s : ARealSenseActor R S) :
    Run (ARealSenseActor R S) :=
  let s := { s with m_session := r.CreateInstance }
  (Run.quitWhen (!s.m_session) QuitSite.session s).andThen fun s =>
  (Run.deref s.m_session s).andThen fun s =>
  let s := { s with m_manager := r.CreateSenseManager }
  (Run.quitWhen (!s.m_manager) QuitSite.manager s).andThen fun s =>
  (BeginPlay.smoothers d r s).andThen fun s =>
  (Run.deref s.m_manager s).andThen fun s =>
  let s := { s with m_status := r.EnableFace }
  (Run.quitWhen (s.m_status != STATUS_NO_ERROR) QuitSite.enableFace s).andThen fun s =>
  let s := { s with m_faceAnalyzer := r.QueryFace }
  (Run.quitWhen (!s.m_faceAnalyzer) QuitSite.faceAnalyzer s).andThen fun s =>
  let s := { s with m_reader := r.Activate }
  (Run.quitWhen (!s.m_reader) QuitSite.streamReader s).andThen fun s =>
  (Run.deref s.m_reader s).andThen fun s =>
  (Run.deref s.m_faceAnalyzer s).andThen fun s =>
  let s := { s with m_outputData := r.CreateOutput }
  let s := { s with m_config := r.CreateActiveConfiguration }
  (Run.deref s.m_config s).andThen fun s =>
  let s := { s with m_status := r.SubscribeAlert }
  (Run.quitWhen (s.m_status != STATUS_NO_ERROR) QuitSite.subscribeAlert s).andThen fun s =>
  let s := { s with m_status := r.Init }
  Run.quitWhen (s.m_status != STATUS_NO_ERROR) QuitSite.pipelineInit s

/-! ## `Tick` -/

/-- The pose object returned by `Face::QueryPose`: the answers of its two
queries, `none` when the query reports failure, else the value it wrote
(`headRot`, and `headPose.headCenter`). -/
structure PoseData (R : Type) where
  QueryPoseQuaternion : Option (PoseQuaternion R)
  QueryHeadPosition : Option (Point3DF32 R)
deriving DecidableEq, Repr

/-- The landmark object returned by `Face::QueryLandmarks`: `QueryPoints` is
`none` when the call returns false, else the array it filled, whose length is
`QueryNumPoints()`. -/
structure LandmarksData (R : Type) where
  QueryPoints : Option (List (LandmarkPoint R))
deriving DecidableEq, Repr

/-- The face returned by `QueryFaceByIndex(0)`: its pose and landmark objects,
`none` for NULL. -/
structure Face (R : Type) where
  QueryPose : Option (PoseData R)
  QueryLandmarks : Option (LandmarksData R)
deriving DecidableEq, Repr

/-- The answers of the SDK to the calls of one `Tick`. `GetSample` tells whether
the sample is non-NULL; it only decides whether the background actor is given a
new image, which is no part of the actor. -/
structure FrameResponses (R : Type) where
  AcquireFrame : Int
  GetSample : Bool
  Update : Int
  QueryNumberOfDetectedFaces : Int
  QueryFaceByIndex : Option (Face R)
deriving DecidableEq, Repr

/-- The block `if(poseData != NULL) { ... }` of `Tick`: rotation, then
position. -/
def Tick.pose {R S : Type} (d : Deps R S) (s : ARealSenseActor R S) (poseData : PoseData R) :
    Option (ARealSenseActor R S) :=
  let s1 :=
    match poseData.QueryPoseQuaternion with
    | some headRot => { s with m_headRotation := d.RsToUnrealQuat headRot }
    | none => s
  match poseData.QueryHeadPosition with
  | some headCenter =>
    if s1.m_smoothData then
      match s1.m_headSmoother with
      | some smoother =>
        let smoothed := d.SmoothValue smoother headCenter
        some { s1 with m_headSmoother := some smoothed.2,
                       m_headLocation := d.RsToUnrealVector smoothed.1 }
      | none => none
    else
      some { s1 with m_headLocation := d.RsToUnrealVector headCenter }
  | none => some s1

/-- The statement `location = m_landmarkSmoothers[identifier - 1]->SmoothValue(location)`:
undefined when `identifier - 1` is not an index of the vector or the smoother
there is NULL; otherwise the smoothed location and the vector with that
smoother advanced. -/
def Tick.smoothLandmark {R S : Type} (d : Deps R S) (smoothers : List (Option S))
    (identifier : Int) (location : Point3DF32 R) : Option (Point3DF32 R × List (Option S)) :=
  let index := identifier - 1
  if index < 0 then none
  else
    match smoothers.get? index.toNat with
    | some (some smoother) =>
      let smoothed := d.SmoothValue smoother location
      some (smoothed.1, smoothers.set index.toNat (some smoothed.2))
    | _ => none

/-- The loop over `landmarkPoints` in `Tick`, with the points from the current
one on still to visit. -/
def Tick.landmarkLoop {R S : Type} [FloatOps R] (d : Deps R S) :
    List (LandmarkPoint R) → ARealSenseActor R S → Option (ARealSenseActor R S)
  | [], s => some s
  | point :: rest, s =>
    if point.source_alias ≠ 0 ∧ point.source_alias ≠ 30 ∧ point.source_alias ≠ 31 ∧
        FloatOps.neZero point.world.z = true then
      let identifier := point.source_alias
      if s.m_smoothData then
        match Tick.smoothLandmark d s.m_landmarkSmoothers identifier point.world with
        | some (location, smoothers) =>
          let landmark : FLandmark R :=
            { location := (d.RsToUnrealVector location).scale FloatOps.thousand,
              identifier := identifier }
          Tick.landmarkLoop d rest
            { s with m_landmarkSmoothers := smoothers, m_landmarks := s.m_landmarks ++ [landmark] }
        | none => none
      else
        let landmark : FLandmark R :=
          { location := (d.RsToUnrealVector point.world).scale FloatOps.thousand,
            identifier := identifier }
        Tick.landmarkLoop d rest { s with m_landmarks := s.m_landmarks ++ [landmark] }
    else
      Tick.landmarkLoop d rest s

/-- The block `if(landmarkData != NULL) { ... }` of `Tick`: the list is emptied
only once `QueryPoints` has succeeded. -/
def Tick.landmarks {R S : Type} [FloatOps R] (d : Deps R S) (s : ARealSenseActor R S)
    (landmarkData : LandmarksData R) : Option (ARealSenseActor R S) :=
  match landmarkData.QueryPoints with
  | some landmarkPoints => Tick.landmarkLoop d landmarkPoints { s with m_landmarks := [] }
  | none => some s

/-- The block `if(trackedFace != NULL) { ... }` of `Tick`: pose data, then
landmark data. -/
def Tick.face {R S : Type} [FloatOps R] (d : Deps R S) (s : ARealSenseActor R S)
    (trackedFace : Face R) : Option (ARealSenseActor R S) :=
  let afterPose :=
    match trackedFace.QueryPose with
    | some poseData => Tick.pose d s poseData
    | none => some s
  afterPose.bind fun s1 =>
    match trackedFace.QueryLandmarks with
    | some landmarkData => Tick.landmarks d s1 landmarkData
    | none => some s1

/-- The branch of `Tick` taken when `AcquireFrame` returned `STATUS_NO_ERROR`:
the video stream, then the output data and the first face. -/
def Tick.frame {R S : Type} [FloatOps R] (d : Deps R S) (s : ARealSenseActor R S)
    (r : FrameResponses R) : Option (ARealSenseActor R S) :=
  if s.m_stream = true ∧ s.m_reader = false then none
  else if s.m_outputData = false then none
  else
    let s1 := { s with m_status := r.Update }
    if s1.m_status = STATUS_NO_ERROR then
      if r.QueryNumberOfDetectedFaces > 0 then
        match r.QueryFaceByIndex with
        | some trackedFace => Tick.face d s1 trackedFace
        | none => some s1
      else some s1
    else some s1

/-- The end of `Tick`, run on every path: the frame is released and the two
flags of the alert handler are mirrored. -/
def Tick.tail {R S : Type} (s : ARealSenseActor R S) : ARealSenseActor R S :=
  let s1 :=
    if s.m_hideOnLost then
      { s with m_shouldMaskBeHidden := s.m_alertHandler.shouldMaskBeHidden }
    else s
  let s2 := { s1 with m_shouldCaptureDefault := s1.m_alertHandler.shouldCaptureDefault }
  { s2 with m_alertHandler := s2.m_alertHandler.resetShouldCaptureDefault }

/-- The method `ARealSenseActor::Tick`. -/
def Tick {R S : Type} [FloatOps R] (d : Deps R S) (s : ARealSenseActor R S)
    (r : FrameResponses R) : Option (ARealSenseActor R S) :=
  if s.m_manager = false then none
  else
    let s1 := { s with m_status := r.AcquireFrame }
    let afterFrame :=
      if s1.m_status = STATUS_NO_ERROR then Tick.frame d s1 r
      else some s1
    afterFrame.map Tick.tail

/-! ## Preconditions of a tick -/

/-- The actor is ready to tick: the handles `Tick` calls through are non-NULL
(the stream reader only when a background actor is attached) and, when
smoothing is enabled, the head smoother and every landmark smoother exist. -/
def ARealSenseActor.Ready {R S : Type} (s : ARealSenseActor R S) : Prop :=
  s.m_manager = true ∧ (s.m_stream = true → s.m_reader = true) ∧ s.m_outputData = true ∧
    (s.m_smoothData = true →
      s.m_headSmoother ≠ none ∧ ∀ smoother ∈ s.m_landmarkSmoothers, smoother ≠ none)

/-- Every landmark point the SDK hands out in this frame has an alias between
`0` and `n` inclusive. -/
def FrameResponses.AliasesUpTo {R : Type} (r : FrameResponses R) (n : Nat) : Prop :=
  ∀ face landmarkData landmarkPoints, r.QueryFaceByIndex = some face →
    face.QueryLandmarks = some landmarkData →
    landmarkData.QueryPoints = some landmarkPoints →
    ∀ point ∈ landmarkPoints, 0 ≤ point.source_alias ∧ point.source_alias ≤ (n : Int)

/-- A tick all of whose pointer and vector accesses are defined: the actor is
ready and, when smoothing is enabled, the aliases of the frame index existing
landmark smoothers. -/
def Tick.Safe {R S : Type} (s : ARealSenseActor R S) (r : FrameResponses R) : Prop :=
  s.Ready ∧ (s.m_smoothData = true → r.AliasesUpTo s.m_landmarkSmoothers.length)

/-! ## Concrete inputs -/

/-- A landmark list with integer coordinates in which identifier 7 occurs
twice and identifier 9 does not occur. -/
def exampleLandmarks : List (FLandmark Int) :=
  [⟨⟨1, 1, 1⟩, 5⟩, ⟨⟨2, 2, 2⟩, 7⟩, ⟨⟨3, 3, 3⟩, 7⟩]

/-- Stand-ins for the parts the embedding takes as parameters: 32 landmarks,
conversions that permute the axes, and a smoother that counts its samples and
shifts the point by the count. -/
def exampleDeps : Deps Int Nat :=
  { NUM_LANDMARKS := 32
    RsToUnrealVector := fun p => ⟨p.z, p.x, p.y⟩
    RsToUnrealQuat := fun q => ⟨q.z, q.x, q.y, q.w⟩
    SmoothValue := fun n p => (⟨p.x + n, p.y, p.z⟩, n + 1) }

/-- A start-up in which every SDK call succeeds. -/
def exampleStartup : StartupResponses Nat :=
  { CreateInstance := true
    CreateSenseManager := true
    CreateSmootherFactory := true
    CreateHeadSmoother := some 0
    CreateLandmarkSmoother := fun _ => some 0
    EnableFace := 0
    QueryFace := true
    Activate := true
    CreateOutput := true
    CreateActiveConfiguration := true
    SubscribeAlert := 0
    Init := 0 }

/-- The start-up of `exampleStartup` except that `CreateOutput` returns NULL. -/
def exampleStartupNoOutput : StartupResponses Nat :=
  { exampleStartup with CreateOutput := false }

/-- The start-up of `exampleStartup` except that `CreateActiveConfiguration`
returns NULL. -/
def exampleStartupNoConfig : StartupResponses Nat :=
  { exampleStartup with CreateActiveConfiguration := false }

/-- The start-up of `exampleStartup` except that `QueryFace` returns NULL. -/
def exampleStartupNoAnalyzer : StartupResponses Nat :=
  { exampleStartup with QueryFace := false }

/-- A freshly constructed actor with a background actor attached, whose alert
handler has been told of a new face: do not hide the mask, capture defaults. -/
def exampleFresh : ARealSenseActor Int Nat :=
  ARealSenseActor.ctor true false ⟨false, true⟩

/-- The actor `exampleFresh` after the start-up `exampleStartup`. -/
def exampleActor : ARealSenseActor Int Nat :=
  { m_landmarks := []
    m_headLocation := ⟨0, 0, 0⟩
    m_headRotation := ⟨0, 0, 0, 0⟩
    m_shouldMaskBeHidden := true
    m_shouldCaptureDefault := false
    m_showLandmarks := false
    m_stream := true
    m_smoothData := true
    m_hideOnLost := true
    m_session := true
    m_manager := true
    m_status := 0
    m_faceAnalyzer := true
    m_outputData := true
    m_config := true
    m_reader := true
    m_headSmoother := some 0
    m_landmarkSmoothers := List.replicate 32 (some 0)
    m_alertHandler := ⟨false, true⟩ }

/-- The landmark points of the example frame: aliases 0, 30 and 31, a point of
depth 0, and two points that are kept (aliases 5 and 2). -/
def examplePoints : List (LandmarkPoint Int) :=
  [⟨0, ⟨1, 1, 1⟩⟩, ⟨5, ⟨1, 2, 3⟩⟩, ⟨30, ⟨1, 1, 1⟩⟩, ⟨7, ⟨1, 1, 0⟩⟩, ⟨31, ⟨1, 1, 1⟩⟩, ⟨2, ⟨4, 5, 6⟩⟩]

/-- The pose data of the example frame: the rotation query succeeds, the
position query fails. -/
def examplePose : PoseData Int :=
  { QueryPoseQuaternion := some ⟨1, 2, 3, 4⟩, QueryHeadPosition := none }

/-- The face of the example frame. -/
def exampleFace : Face Int :=
  { QueryPose := some examplePose, QueryLandmarks := some ⟨some examplePoints⟩ }

/-- A frame in which every call succeeds. -/
def exampleFrame : FrameResponses Int :=
  { AcquireFrame := 0
    GetSample := true
    Update := 0
    QueryNumberOfDetectedFaces := 1
    QueryFaceByIndex := some exampleFace }

/-- The frame `exampleFrame` except that `AcquireFrame` times out. -/
def exampleFrameTimeout : FrameResponses Int :=
  { exampleFrame with AcquireFrame := -1 }

/-- The frame `exampleFrame` except that `QueryPoints` returns false. -/
def exampleFrameNoPoints : FrameResponses Int :=
  { exampleFrame with QueryFaceByIndex := some { exampleFace with QueryLandmarks := some ⟨none⟩ } }

/-- The actor `exampleActor` after the tick on `exampleFrame`. -/
def exampleAfterTick : ARealSenseActor Int Nat :=
  { exampleActor with
    m_landmarks := [⟨⟨3000, 1000, 2000⟩, 5⟩, ⟨⟨6000, 4000, 5000⟩, 2⟩]
    m_headRotation := ⟨3, 1, 2, 4⟩
    m_shouldMaskBeHidden := false
    m_shouldCaptureDefault := true
    m_landmarkSmoothers :=
      [some 0, some 1, some 0, some 0, some 1] ++ List.replicate 27 (some 0)
    m_alertHandler := ⟨false, false⟩ }

/-- The actor `exampleAfterTick` after a further tick on `exampleFrameTimeout`. -/
def exampleAfterTimeout : ARealSenseActor Int Nat :=
  { exampleAfterTick with m_status := -1, m_shouldCaptureDefault := false }

/-! ## Properties of `getLandmarkById` -/

/-- The index left by the loop entered at `i` is `0` or a position of the
visited suffix. -/
theorem getLandmarkById.scan_range {R : Type} (id : Int) (ls : List (FLandmark R)) (i : Nat) :
    getLandmarkById.scan id ls i = 0 ∨
      (i ≤ getLandmarkById.scan id ls i ∧ getLandmarkById.scan id ls i < i + ls.length) := by
  induction ls generalizing i with
  | nil => left; rfl
  | cons l rest ih =>
    simp only [getLandmarkById.scan, List.length_cons]
    split
    · right; omega
    · rcases ih (i + 1) with h | h
      · left; exact h
      · right; omega

/-- On a non-empty list the index left by the loop is in range. -/
theorem getLandmarkById.scan_lt {R : Type} (id : Int) (ls : List (FLandmark R))
    (h : 0 < ls.length) : getLandmarkById.scan id ls 0 < ls.length := by
  rcases getLandmarkById.scan_range id ls 0 with h0 | h0 <;> omega

/-- Without a matching element the loop leaves the index at `0`. -/
theorem getLandmarkById.scan_no_match {R : Type} (id : Int) (ls : List (FLandmark R)) (i : Nat)
    (h : ∀ l ∈ ls, l.identifier ≠ id) : getLandmarkById.scan id ls i = 0 := by
  induction ls generalizing i with
  | nil => rfl
  | cons l rest ih =>
    have hl : l.identifier ≠ id := h l (List.mem_cons_self _ _)
    simp only [getLandmarkById.scan, hl, if_false]
    exact ih (i + 1) (fun x hx => h x (List.mem_cons_of_mem _ hx))

/-- With a matching element in the suffix `ls` (which starts at position `i`
of the whole list), the loop stops at the position `i + k` of the first one. -/
theorem getLandmarkById.scan_match {R : Type} (id : Int) (ls : List (FLandmark R)) (i : Nat)
    (h : ∃ l ∈ ls, l.identifier = id) :
    ∃ k, ∃ hk : k < ls.length, getLandmarkById.scan id ls i = i + k ∧
      (ls.get ⟨k, hk⟩).identifier = id ∧
      ∀ j, ∀ hj : j < ls.length, j < k → (ls.get ⟨j, hj⟩).identifier ≠ id := by
  induction ls generalizing i with
  | nil => obtain ⟨l, hl, _⟩ := h; cases hl
  | cons l rest ih =>
    by_cases hl : l.identifier = id
    · refine ⟨0, by simp, ?_, by simpa using hl, ?_⟩
      · simp [getLandmarkById.scan, hl]
      · intro j hj hlt; omega
    · have hrest : ∃ x ∈ rest, x.identifier = id := by
        obtain ⟨x, hx, hxid⟩ := h
        rcases List.mem_cons.mp hx with rfl | hx
        · exact absurd hxid hl
        · exact ⟨x, hx, hxid⟩
      obtain ⟨k, hk, hscan, hid, hfirst⟩ := ih (i + 1) hrest
      refine ⟨k + 1, by simpa using hk, ?_, by simpa using hid, ?_⟩
      · simp only [getLandmarkById.scan, hl, if_false, hscan]; omega
      · intro j hj hlt
        cases j with
        | zero => simpa using hl
        | succ j =>
          have hj2 : j < rest.length := by simpa using hj
          simpa using hfirst j hj2 (by omega)

/-- C1: when some element of the list has identifier `id`, `getLandmarkById`
returns the element at the lowest index whose identifier is `id`: the returned
element sits at an index `i`, its identifier is `id`, and no element at an
index below `i` has identifier `id` (so a later duplicate is never returned). -/
theorem getLandmarkById_first_match {R : Type} [FloatOps R] (landmarks : List (FLandmark R))
    (id : Int) (h : ∃ l ∈ landmarks, l.identifier = id) :
    ∃ i, ∃ hi : i < landmarks.length,
      getLandmarkById landmarks id = landmarks.get ⟨i, hi⟩ ∧
      (landmarks.get ⟨i, hi⟩).identifier = id ∧
      ∀ j, ∀ hj : j < landmarks.length, j < i → (landmarks.get ⟨j, hj⟩).identifier ≠ id := by
  obtain ⟨k, hk, hscan, hid, hfirst⟩ := getLandmarkById.scan_match id landmarks 0 h
  refine ⟨k, hk, ?_, hid, hfirst⟩
  have hpos : landmarks.length > 0 := by omega
  simp only [getLandmarkById, hpos, if_true, hscan, Nat.zero_add]
  simp [List.getElem?_eq_getElem hk]

/-- C1, evaluated: in a list where two elements carry identifier 7 the lookup
of 7 returns the earlier one. -/
theorem getLandmarkById_first_match_witness :
    (∃ l ∈ exampleLandmarks, l.identifier = 7) ∧
      ∃ i, ∃ hi : i < exampleLandmarks.length,
        getLandmarkById exampleLandmarks 7 = exampleLandmarks.get ⟨i, hi⟩ ∧
        (exampleLandmarks.get ⟨i, hi⟩).identifier = 7 ∧
        ∀ j, ∀ hj : j < exampleLandmarks.length, j < i →
          (exampleLandmarks.get ⟨j, hj⟩).identifier ≠ 7 :=
  ⟨⟨⟨⟨2, 2, 2⟩, 7⟩, by decide, rfl⟩,
    getLandmarkById_first_match exampleLandmarks 7 ⟨⟨⟨2, 2, 2⟩, 7⟩, by decide, rfl⟩⟩

/-- C2: on a non-empty list none of whose elements has identifier `id`,
`getLandmarkById` returns the element at index 0. -/
theorem getLandmarkById_no_match_first {R : Type} [FloatOps R] (landmarks : List (FLandmark R))
    (id : Int) (hne : 0 < landmarks.length) (h : ∀ l ∈ landmarks, l.identifier ≠ id) :
    getLandmarkById landmarks id = landmarks.get ⟨0, hne⟩ := by
  have hpos : landmarks.length > 0 := hne
  simp only [getLandmarkById, hpos, if_true, getLandmarkById.scan_no_match id landmarks 0 h]
  simp [List.getElem?_eq_getElem hne]

/-- C2, evaluated: no element of the example list has identifier 9, and the
lookup of 9 returns its first element. -/
theorem getLandmarkById_no_match_first_witness :
    getLandmarkById exampleLandmarks 9 = ⟨⟨1, 1, 1⟩, 5⟩ :=
  getLandmarkById_no_match_first exampleLandmarks 9 (by decide) (by decide)

/-- C3: on the empty list `getLandmarkById` returns, for every `id`, the
default landmark, whose identifier is 0 and whose location is (0,0,0). -/
theorem getLandmarkById_empty {R : Type} [FloatOps R] (id : Int) :
    getLandmarkById ([] : List (FLandmark R)) id = FLandmark.ctor ∧
      (getLandmarkById ([] : List (FLandmark R)) id).identifier = 0 ∧
      (getLandmarkById ([] : List (FLandmark R)) id).location =
        ⟨FloatOps.zero, FloatOps.zero, FloatOps.zero⟩ :=
  ⟨rfl, rfl, rfl⟩

/-- C4 as stated fails: on a non-empty list without a match the result need
not be the zero-valued default landmark. The example list has no element of
identifier 9, and the lookup of 9 returns a landmark of identifier 5. -/
theorem getLandmarkById_no_match_not_default :
    ¬ ∀ (landmarks : List (FLandmark Int)) (id : Int), 0 < landmarks.length →
        (∀ l ∈ landmarks, l.identifier ≠ id) →
        getLandmarkById landmarks id = FLandmark.ctor := by
  intro h
  have h9 := h exampleLandmarks 9 (by decide) (by decide)
  revert h9
  decide

/-- C4, amended: on a non-empty list `first :: rest` none of whose elements has
identifier `id`, `getLandmarkById` returns `first`; the result is the
zero-valued default landmark exactly when `first` is. -/
theorem getLandmarkById_no_match_head {R : Type} [FloatOps R] (first : FLandmark R)
    (rest : List (FLandmark R)) (id : Int) (h : ∀ l ∈ first :: rest, l.identifier ≠ id) :
    getLandmarkById (first :: rest) id = first ∧
      (getLandmarkById (first :: rest) id = FLandmark.ctor ↔ first = FLandmark.ctor) := by
  have hres : getLandmarkById (first :: rest) id = first := by
    simp [getLandmarkById, getLandmarkById.scan_no_match id (first :: rest) 0 h]
  exact ⟨hres, by rw [hres]⟩

/-- C4 amended, evaluated on the example list and the absent identifier 9. -/
theorem getLandmarkById_no_match_head_witness :
    getLandmarkById exampleLandmarks 9 = ⟨⟨1, 1, 1⟩, 5⟩ ∧
      (getLandmarkById exampleLandmarks 9 = FLandmark.ctor ↔
        (⟨⟨1, 1, 1⟩, 5⟩ : FLandmark Int) = FLandmark.ctor) :=
  getLandmarkById_no_match_head ⟨⟨1, 1, 1⟩, 5⟩ [⟨⟨2, 2, 2⟩, 7⟩, ⟨⟨3, 3, 3⟩, 7⟩] 9 (by decide)

/-! ## Properties of `Tick` -/

/-- The landmark loop appends, in order, one landmark per visited point that
passes the test of the loop, with the alias of the point as identifier. -/
theorem Tick.landmarkLoop_identifiers {R S : Type} [FloatOps R] (d : Deps R S)
    (pts : List (LandmarkPoint R)) (s t : ARealSenseActor R S)
    (h : Tick.landmarkLoop d pts s = some t) :
    t.m_landmarks.map (fun l => l.identifier) =
      s.m_landmarks.map (fun l => l.identifier) ++
        (pts.filter (fun p => decide (p.source_alias ≠ 0 ∧ p.source_alias ≠ 30 ∧
          p.source_alias ≠ 31) && FloatOps.neZero p.world.z)).map (fun p => p.source_alias) := by
  induction pts generalizing s with
  | nil =>
    simp only [Tick.landmarkLoop, Option.some.injEq] at h
    subst h; simp
  | cons p rest ih =>
    simp only [Tick.landmarkLoop] at h
    split at h
    · rename_i hkeep
      have hf : (decide (p.source_alias ≠ 0 ∧ p.source_alias ≠ 30 ∧ p.source_alias ≠ 31) &&
          FloatOps.neZero p.world.z) = true := by
        simp only [Bool.and_eq_true, decide_eq_true_eq]
        exact ⟨⟨hkeep.1, hkeep.2.1, hkeep.2.2.1⟩, hkeep.2.2.2⟩
      simp only [List.filter_cons, hf, if_true]
      split at h
      · split at h
        · rw [ih _ h]; simp
        · cases h
      · rw [ih _ h]; simp
    · rename_i hkeep
      have hf : ¬ (decide (p.source_alias ≠ 0 ∧ p.source_alias ≠ 30 ∧ p.source_alias ≠ 31) &&
          FloatOps.neZero p.world.z) = true := by
        simp only [Bool.and_eq_true, decide_eq_true_eq]
        intro hc
        exact hkeep ⟨hc.1.1, hc.1.2.1, hc.1.2.2, hc.2⟩
      simp only [List.filter_cons, hf, if_false]
      exact ih _ h

/-- The landmark loop changes nothing but the landmark list and the landmark
smoothers. -/
theorem Tick.landmarkLoop_frame {R S : Type} [FloatOps R] (d : Deps R S)
    (pts : List (LandmarkPoint R)) (s t : ARealSenseActor R S)
    (h : Tick.landmarkLoop d pts s = some t) :
    t = { s with m_landmarks := t.m_landmarks, m_landmarkSmoothers := t.m_landmarkSmoothers } := by
  induction pts generalizing s with
  | nil =>
    simp only [Tick.landmarkLoop, Option.some.injEq] at h
    subst h; rfl
  | cons p rest ih =>
    simp only [Tick.landmarkLoop] at h
    split at h
    · split at h
      · split at h
        · have h2 := ih _ h
          exact h2
        · cases h
      · have h2 := ih _ h
        exact h2
    · exact ih _ h

/-- The pose block changes nothing but the head rotation, the head location
and the head smoother. -/
theorem Tick.pose_frame {R S : Type} (d : Deps R S) (s t : ARealSenseActor R S)
    (poseData : PoseData R) (h : Tick.pose d s poseData = some t) :
    t = { s with m_headRotation := t.m_headRotation, m_headLocation := t.m_headLocation,
                 m_headSmoother := t.m_headSmoother } := by
  unfold Tick.pose at h
  cases s
  cases poseData
  rename_i smooth _ _ _ _ _ _ _ _ headSmoother _ _ q p
  cases q <;> cases p <;> cases smooth <;> cases headSmoother <;>
    simp at h <;> subst h <;> rfl

/-- What the pose block writes: each of the two head fields is overwritten
when its own query succeeded and kept otherwise. -/
theorem Tick.pose_fields {R S : Type} (d : Deps R S) (s t : ARealSenseActor R S)
    (poseData : PoseData R) (h : Tick.pose d s poseData = some t) :
    (poseData.QueryPoseQuaternion = none → t.m_headRotation = s.m_headRotation) ∧
    (poseData.QueryHeadPosition = none → t.m_headLocation = s.m_headLocation) ∧
    (∀ headRot, poseData.QueryPoseQuaternion = some headRot →
      t.m_headRotation = d.RsToUnrealQuat headRot) ∧
    (∀ headCenter, poseData.QueryHeadPosition = some headCenter →
      (s.m_smoothData = false ∧ t.m_headLocation = d.RsToUnrealVector headCenter) ∨
      (s.m_smoothData = true ∧ ∃ smoother, s.m_headSmoother = some smoother ∧
        t.m_headLocation = d.RsToUnrealVector (d.SmoothValue smoother headCenter).1)) := by
  unfold Tick.pose at h
  cases s
  cases poseData
  rename_i smooth _ _ _ _ _ _ _ _ headSmoother _ _ q p
  cases q <;> cases p <;> cases smooth <;> cases headSmoother <;>
    simp at h <;> subst h <;> simp

/-- The end of the tick leaves the landmark list, the head pose and the
smoothers alone. -/
theorem Tick.tail_fields {R S : Type} (s : ARealSenseActor R S) :
    (Tick.tail s).m_landmarks = s.m_landmarks ∧
    (Tick.tail s).m_headLocation = s.m_headLocation ∧
    (Tick.tail s).m_headRotation = s.m_headRotation := by
  unfold Tick.tail
  cases s.m_hideOnLost <;> simp

/-- The flags after the end of the tick: both are read from the alert handler,
the first only when hiding on a lost face is enabled. -/
theorem Tick.tail_flags {R S : Type} (s : ARealSenseActor R S) :
    (Tick.tail s).m_shouldCaptureDefault = s.m_alertHandler.shouldCaptureDefault ∧
    (Tick.tail s).m_shouldMaskBeHidden =
      (if s.m_hideOnLost = true then s.m_alertHandler.shouldMaskBeHidden
       else s.m_shouldMaskBeHidden) := by
  unfold Tick.tail
  cases s.m_hideOnLost <;> simp

/-- A completed tick that got a frame, refreshed the output data and was
handed a face ran the face block from the state with the new status, then the
end of the tick. -/
theorem Tick_some_of_face {R S : Type} [FloatOps R] (d : Deps R S) (s t : ARealSenseActor R S)
    (r : FrameResponses R) (face : Face R)
    (hacq : r.AcquireFrame = STATUS_NO_ERROR) (hupd : r.Update = STATUS_NO_ERROR)
    (hn : r.QueryNumberOfDetectedFaces > 0) (hface : r.QueryFaceByIndex = some face)
    (ht : Tick d s r = some t) :
    ∃ s2, Tick.face d { s with m_status := r.Update } face = some s2 ∧ t = Tick.tail s2 := by
  have hm : s.m_manager = true := by
    cases hm : s.m_manager
    · simp [Tick, hm] at ht
    · rfl
  have hs : ¬ (s.m_stream = true ∧ s.m_reader = false) := by
    intro hc
    simp [Tick, Tick.frame, hm, hacq, hc.1, hc.2] at ht
  have ho : s.m_outputData = true := by
    cases ho : s.m_outputData
    · simp [Tick, Tick.frame, hm, hacq, ho] at ht
    · rfl
  simp only [Tick, Tick.frame, hm, hacq, hupd, hn, hface, hs, ho, if_true, if_false,
    Option.map_eq_some', Bool.true_eq_false] at ht
  obtain ⟨s2, hs2, rfl⟩ := ht
  refine ⟨s2, ?_, rfl⟩
  simpa only [hm, ho, hupd] using hs2

/-- A completed face block ran the pose block (when there is pose data) and
then the landmark block (when there is landmark data). -/
theorem Tick.face_some {R S : Type} [FloatOps R] (d : Deps R S) (s t : ARealSenseActor R S)
    (face : Face R) (h : Tick.face d s face = some t) :
    ∃ s1, (match face.QueryPose with
        | some poseData => Tick.pose d s poseData
        | none => some s) = some s1 ∧
      (match face.QueryLandmarks with
        | some landmarkData => Tick.landmarks d s1 landmarkData
        | none => some s1) = some t := by
  unfold Tick.face at h
  simp only [Option.bind_eq_some] at h
  exact h

/-- The pose step of the face block keeps the landmark list and the landmark
smoothers. -/
theorem Tick.poseStep_keeps {R S : Type} (d : Deps R S) (s s1 : ARealSenseActor R S)
    (pose : Option (PoseData R))
    (h : (match pose with
        | some poseData => Tick.pose d s poseData
        | none => some s) = some s1) :
    s1.m_landmarks = s.m_landmarks ∧ s1.m_landmarkSmoothers = s.m_landmarkSmoothers ∧
      s1.m_smoothData = s.m_smoothData := by
  cases pose with
  | none =>
    simp only [Option.some.injEq] at h
    subst h; exact ⟨rfl, rfl, rfl⟩
  | some poseData =>
    have hf := Tick.pose_frame d s s1 poseData h
    rw [hf]; exact ⟨rfl, rfl, rfl⟩

/-- The landmark loop keeps the smoothing toggle, the number of landmark
smoothers and, when they all exist, their existence. -/
theorem Tick.landmarkLoop_smoothers {R S : Type} [FloatOps R] (d : Deps R S)
    (pts : List (LandmarkPoint R)) (s t : ARealSenseActor R S)
    (h : Tick.landmarkLoop d pts s = some t) :
    t.m_landmarkSmoothers.length = s.m_landmarkSmoothers.length ∧
      ((∀ smoother ∈ s.m_landmarkSmoothers, smoother ≠ none) →
        ∀ smoother ∈ t.m_landmarkSmoothers, smoother ≠ none) := by
  induction pts generalizing s with
  | nil =>
    simp only [Tick.landmarkLoop, Option.some.injEq] at h
    subst h; exact ⟨rfl, fun hall => hall⟩
  | cons p rest ih =>
    simp only [Tick.landmarkLoop] at h
    split at h
    · split at h
      · split at h
        · rename_i location smoothers hsm
          have h2 := ih _ h
          simp only [Tick.smoothLandmark] at hsm
          split at hsm
          · cases hsm
          · split at hsm
            · simp only [Option.some.injEq, Prod.mk.injEq] at hsm
              obtain ⟨_, rfl⟩ := hsm
              refine ⟨by simpa using h2.1, fun hall => h2.2 ?_⟩
              intro smoother hmem
              rcases List.mem_or_eq_of_mem_set hmem with hmem | rfl
              · exact hall smoother hmem
              · simp
            · cases hsm
        · cases h
      · have h2 := ih _ h
        exact h2
    · exact ih _ h

/-- The landmark loop completes when smoothing is disabled, and when every
landmark smoother exists and the alias of every point is between 0 and their
number. -/
theorem Tick.landmarkLoop_defined {R S : Type} [FloatOps R] (d : Deps R S)
    (pts : List (LandmarkPoint R)) (s : ARealSenseActor R S)
    (hsafe : s.m_smoothData = true →
      (∀ smoother ∈ s.m_landmarkSmoothers, smoother ≠ none) ∧
      ∀ point ∈ pts, 0 ≤ point.source_alias ∧
        point.source_alias ≤ (s.m_landmarkSmoothers.length : Int)) :
    ∃ t, Tick.landmarkLoop d pts s = some t := by
  induction pts generalizing s with
  | nil => exact ⟨s, rfl⟩
  | cons p rest ih =>
    simp only [Tick.landmarkLoop]
    split
    · rename_i hkeep
      split
      · rename_i hsmooth
        obtain ⟨hall, hrange⟩ := hsafe hsmooth
        have hp := hrange p (List.mem_cons_self _ _)
        have hidx : ¬ p.source_alias - 1 < 0 := by have := hkeep.1; omega
        have hlt : (p.source_alias - 1).toNat < s.m_landmarkSmoothers.length := by omega
        obtain ⟨smoother, hget⟩ : ∃ smoother,
            s.m_landmarkSmoothers.get? (p.source_alias - 1).toNat = some (some smoother) := by
          have hmem := List.get_mem s.m_landmarkSmoothers (p.source_alias - 1).toNat hlt
          cases hx : s.m_landmarkSmoothers.get ⟨(p.source_alias - 1).toNat, hlt⟩ with
          | none => exact absurd hx (hall _ hmem)
          | some smoother => exact ⟨smoother, by rw [List.get?_eq_get hlt, hx]⟩
        simp only [Tick.smoothLandmark, hidx, if_false, hget]
        apply ih
        intro _
        refine ⟨?_, ?_⟩
        · intro x hmem
          rcases List.mem_or_eq_of_mem_set hmem with hmem | rfl
          · exact hall x hmem
          · simp
        · intro q hq
          simpa using hrange q (List.mem_cons_of_mem _ hq)
      · rename_i hsmooth
        apply ih
        intro hc
        exact absurd hc hsmooth
    · apply ih
      intro hsmooth
      obtain ⟨hall, hrange⟩ := hsafe hsmooth
      exact ⟨hall, fun q hq => hrange q (List.mem_cons_of_mem _ hq)⟩

/-- The pose block completes when smoothing is disabled or the head smoother
exists. -/
theorem Tick.pose_defined {R S : Type} (d : Deps R S) (s : ARealSenseActor R S)
    (poseData : PoseData R) (h : s.m_smoothData = true → s.m_headSmoother ≠ none) :
    ∃ t, Tick.pose d s poseData = some t := by
  unfold Tick.pose
  cases s
  cases poseData
  rename_i smooth _ _ _ _ _ _ _ _ headSmoother _ _ q p
  cases q <;> cases p <;> cases smooth <;> cases headSmoother <;> simp at h ⊢

/-- The face block completes when smoothing is disabled, and when the head
smoother and every landmark smoother exist and the aliases of the returned
points are between 0 and the number of landmark smoothers. -/
theorem Tick.face_defined {R S : Type} [FloatOps R] (d : Deps R S) (s : ARealSenseActor R S)
    (face : Face R)
    (hsm : s.m_smoothData = true →
      s.m_headSmoother ≠ none ∧ ∀ smoother ∈ s.m_landmarkSmoothers, smoother ≠ none)
    (hal : s.m_smoothData = true → ∀ landmarkData landmarkPoints,
      face.QueryLandmarks = some landmarkData →
      landmarkData.QueryPoints = some landmarkPoints →
      ∀ point ∈ landmarkPoints, 0 ≤ point.source_alias ∧
        point.source_alias ≤ (s.m_landmarkSmoothers.length : Int)) :
    ∃ t, Tick.face d s face = some t := by
  have hpose : ∃ s1, (match face.QueryPose with
      | some poseData => Tick.pose d s poseData
      | none => some s) = some s1 := by
    cases face.QueryPose with
    | none => exact ⟨_, rfl⟩
    | some poseData => exact Tick.pose_defined d _ poseData (fun h => (hsm h).1)
  obtain ⟨s1, hs1⟩ := hpose
  obtain ⟨-, hkeep1, hkeep2⟩ := Tick.poseStep_keeps d _ s1 face.QueryPose hs1
  simp only [Tick.face, Option.bind_eq_some]
  cases hld : face.QueryLandmarks with
  | none => exact ⟨s1, ⟨s1, hs1, rfl⟩⟩
  | some landmarkData =>
    cases hpts : landmarkData.QueryPoints with
    | none => exact ⟨s1, ⟨s1, hs1, by simp [Tick.landmarks, hpts]⟩⟩
    | some pts =>
      obtain ⟨t, ht⟩ := Tick.landmarkLoop_defined d pts { s1 with m_landmarks := [] }
        (by
          intro hsd
          have hsd1 : s1.m_smoothData = true := hsd
          have hsd2 : s.m_smoothData = true := by rw [← hkeep2]; exact hsd1
          refine ⟨?_, ?_⟩
          · show ∀ smoother ∈ s1.m_landmarkSmoothers, smoother ≠ none
            rw [hkeep1]; exact (hsm hsd2).2
          · show ∀ point ∈ pts, 0 ≤ point.source_alias ∧
              point.source_alias ≤ (s1.m_landmarkSmoothers.length : Int)
            rw [hkeep1]
            exact hal hsd2 landmarkData pts hld hpts)
      exact ⟨t, ⟨s1, hs1, by simp [Tick.landmarks, hpts, ht]⟩⟩

/-- The branch of the tick that has a frame completes under the conditions of
a safe tick. -/
theorem Tick.frame_defined {R S : Type} [FloatOps R] (d : Deps R S) (s : ARealSenseActor R S)
    (r : FrameResponses R) (hs : s.m_stream = true → s.m_reader = true)
    (ho : s.m_outputData = true)
    (hsm : s.m_smoothData = true →
      s.m_headSmoother ≠ none ∧ ∀ smoother ∈ s.m_landmarkSmoothers, smoother ≠ none)
    (hal : s.m_smoothData = true → r.AliasesUpTo s.m_landmarkSmoothers.length) :
    ∃ t, Tick.frame d s r = some t := by
  have hs2 : ¬ (s.m_stream = true ∧ s.m_reader = false) := by
    intro hc
    have := hs hc.1
    rw [hc.2] at this
    cases this
  have ho2 : ¬ s.m_outputData = false := by rw [ho]; decide
  unfold Tick.frame
  rw [if_neg hs2, if_neg ho2]
  show ∃ t, (if r.Update = STATUS_NO_ERROR then _ else _) = some t
  split
  · split
    · cases hface : r.QueryFaceByIndex with
      | none => exact ⟨_, rfl⟩
      | some face =>
        exact Tick.face_defined d { s with m_status := r.Update } face hsm
          (fun hsd ld pts hld hpts => hal hsd face ld pts hface hld hpts)
    · exact ⟨_, rfl⟩
  · exact ⟨_, rfl⟩

/-- A safe tick completes: it yields a state. -/
theorem Tick_defined {R S : Type} [FloatOps R] (d : Deps R S) (s : ARealSenseActor R S)
    (r : FrameResponses R) (hsafe : Tick.Safe s r) : ∃ t, Tick d s r = some t := by
  obtain ⟨⟨hm, hs, ho, hsm⟩, hal⟩ := hsafe
  have hm2 : ¬ s.m_manager = false := by rw [hm]; decide
  unfold Tick
  rw [if_neg hm2]
  show ∃ t, Option.map Tick.tail (if r.AcquireFrame = STATUS_NO_ERROR then _ else _) = some t
  split
  · obtain ⟨t, ht⟩ := Tick.frame_defined d { s with m_status := r.AcquireFrame } r hs ho hsm hal
    exact ⟨Tick.tail t, by rw [ht]; rfl⟩
  · exact ⟨_, rfl⟩

/-- The landmark step of the face block keeps the head pose. -/
theorem Tick.landmarkStep_keeps_head {R S : Type} [FloatOps R] (d : Deps R S)
    (s1 t : ARealSenseActor R S) (landmarks : Option (LandmarksData R))
    (h : (match landmarks with
        | some landmarkData => Tick.landmarks d s1 landmarkData
        | none => some s1) = some t) :
    t.m_headLocation = s1.m_headLocation ∧ t.m_headRotation = s1.m_headRotation := by
  cases landmarks with
  | none =>
    simp only [Option.some.injEq] at h
    subst h; exact ⟨rfl, rfl⟩
  | some landmarkData =>
    simp only [Tick.landmarks] at h
    split at h
    · have hf := Tick.landmarkLoop_frame d _ _ t h
      rw [hf]; exact ⟨rfl, rfl⟩
    · simp only [Option.some.injEq] at h
      subst h; exact ⟨rfl, rfl⟩

/-- A completed face block either kept the landmark list or got the points of
a successful `QueryPoints`. -/
theorem Tick.face_landmarks_cases {R S : Type} [FloatOps R] (d : Deps R S)
    (s t : ARealSenseActor R S) (face : Face R) (h : Tick.face d s face = some t) :
    t.m_landmarks = s.m_landmarks ∨
      ∃ landmarkData landmarkPoints, face.QueryLandmarks = some landmarkData ∧
        landmarkData.QueryPoints = some landmarkPoints := by
  obtain ⟨s1, hs1, hstep⟩ := Tick.face_some d s t face h
  obtain ⟨hkeep, -, -⟩ := Tick.poseStep_keeps d s s1 face.QueryPose hs1
  cases hld : face.QueryLandmarks with
  | none =>
    rw [hld] at hstep
    simp only [Option.some.injEq] at hstep
    subst hstep; exact Or.inl hkeep
  | some landmarkData =>
    cases hpts : landmarkData.QueryPoints with
    | none =>
      rw [hld] at hstep
      simp only [Tick.landmarks, hpts, Option.some.injEq] at hstep
      subst hstep; exact Or.inl hkeep
    | some landmarkPoints => exact Or.inr ⟨landmarkData, landmarkPoints, rfl, hpts⟩

/-- A completed frame branch either kept the landmark list or went through
every stage of the landmark read. -/
theorem Tick.frame_landmarks_cases {R S : Type} [FloatOps R] (d : Deps R S)
    (s t : ARealSenseActor R S) (r : FrameResponses R) (h : Tick.frame d s r = some t) :
    t.m_landmarks = s.m_landmarks ∨
      (r.Update = STATUS_NO_ERROR ∧ r.QueryNumberOfDetectedFaces > 0 ∧
        ∃ face landmarkData landmarkPoints, r.QueryFaceByIndex = some face ∧
          face.QueryLandmarks = some landmarkData ∧
          landmarkData.QueryPoints = some landmarkPoints) := by
  unfold Tick.frame at h
  split at h
  · cases h
  · split at h
    · cases h
    · simp only at h
      split at h
      · rename_i hupd
        split at h
        · rename_i hn
          split at h
          · rename_i face hface
            rcases Tick.face_landmarks_cases d _ t face h with hk | ⟨ld, pts, hld, hpts⟩
            · exact Or.inl hk
            · exact Or.inr ⟨hupd, hn, face, ld, pts, hface, hld, hpts⟩
          · simp only [Option.some.injEq] at h
            subst h; exact Or.inl rfl
        · simp only [Option.some.injEq] at h
          subst h; exact Or.inl rfl
      · simp only [Option.some.injEq] at h
        subst h; exact Or.inl rfl

/-- A completed tick either kept the landmark list or went through every stage
of the landmark read. -/
theorem Tick_landmarks_cases {R S : Type} [FloatOps R] (d : Deps R S)
    (s t : ARealSenseActor R S) (r : FrameResponses R) (h : Tick d s r = some t) :
    t.m_landmarks = s.m_landmarks ∨
      (r.AcquireFrame = STATUS_NO_ERROR ∧ r.Update = STATUS_NO_ERROR ∧
        r.QueryNumberOfDetectedFaces > 0 ∧
        ∃ face landmarkData landmarkPoints, r.QueryFaceByIndex = some face ∧
          face.QueryLandmarks = some landmarkData ∧
          landmarkData.QueryPoints = some landmarkPoints) := by
  unfold Tick at h
  split at h
  · cases h
  · simp only [Option.map_eq_some'] at h
    obtain ⟨s2, hs2, rfl⟩ := h
    rw [(Tick.tail_fields s2).1]
    split at hs2
    · rename_i hacq
      rcases Tick.frame_landmarks_cases d _ s2 r hs2 with hk | ⟨hupd, hn, hex⟩
      · exact Or.inl hk
      · exact Or.inr ⟨hacq, hupd, hn, hex⟩
    · simp only [Option.some.injEq] at hs2
      subst hs2; exact Or.inl rfl

/-- The pose block does not read the landmark list: from a state with another
list it yields the same state with that list. -/
theorem Tick.pose_prior {R S : Type} (d : Deps R S) (s : ARealSenseActor R S)
    (poseData : PoseData R) (prior : List (FLandmark R)) :
    Tick.pose d { s with m_landmarks := prior } poseData =
      (Tick.pose d s poseData).map (fun t => { t with m_landmarks := prior }) := by
  unfold Tick.pose
  cases s
  cases poseData
  rename_i smooth _ _ _ _ _ _ _ _ headSmoother _ _ q p
  cases q <;> cases p <;> cases smooth <;> cases headSmoother <;> simp

/-- With a successful `QueryPoints` the face block yields the same state
whatever the landmark list it starts from. -/
theorem Tick.face_prior {R S : Type} [FloatOps R] (d : Deps R S) (s : ARealSenseActor R S)
    (face : Face R) (landmarkData : LandmarksData R) (landmarkPoints : List (LandmarkPoint R))
    (hld : face.QueryLandmarks = some landmarkData)
    (hpts : landmarkData.QueryPoints = some landmarkPoints) (prior : List (FLandmark R)) :
    Tick.face d { s with m_landmarks := prior } face = Tick.face d s face := by
  unfold Tick.face
  simp only [hld, Tick.landmarks, hpts]
  cases face.QueryPose with
  | none => rfl
  | some poseData =>
    simp only [Tick.pose_prior]
    cases Tick.pose d s poseData <;> rfl

/-- With a successful landmark read the tick yields the same state whatever
the landmark list it starts from. -/
theorem Tick_prior {R S : Type} [FloatOps R] (d : Deps R S) (s : ARealSenseActor R S)
    (r : FrameResponses R) (face : Face R) (landmarkData : LandmarksData R)
    (landmarkPoints : List (LandmarkPoint R))
    (hacq : r.AcquireFrame = STATUS_NO_ERROR) (hupd : r.Update = STATUS_NO_ERROR)
    (hn : r.QueryNumberOfDetectedFaces > 0) (hface : r.QueryFaceByIndex = some face)
    (hld : face.QueryLandmarks = some landmarkData)
    (hpts : landmarkData.QueryPoints = some landmarkPoints) (prior : List (FLandmark R)) :
    Tick d { s with m_landmarks := prior } r = Tick d s r := by
  have hface2 := Tick.face_prior d { s with m_status := STATUS_NO_ERROR } face landmarkData
    landmarkPoints hld hpts prior
  unfold Tick Tick.frame
  simp only [hacq, hupd, hn, hface, if_true]
  by_cases hm : s.m_manager = false
  · rw [if_pos hm, if_pos hm]
  · rw [if_neg hm, if_neg hm]
    by_cases hs : s.m_stream = true ∧ s.m_reader = false
    · rw [if_pos hs, if_pos hs]
    · rw [if_neg hs, if_neg hs]
      by_cases ho : s.m_outputData = false
      · rw [if_pos ho, if_pos ho]
      · rw [if_neg ho, if_neg ho]
        exact congrArg (Option.map Tick.tail) hface2

/-- The example tick is safe: the precondition under which the claims about
`Tick` promise a result holds of a concrete actor and frame. -/
theorem exampleTick_safe : Tick.Safe exampleActor exampleFrame := by
  refine ⟨⟨by decide, by decide, by decide, fun _ => ⟨by decide, by decide⟩⟩, ?_⟩
  intro _ face landmarkData landmarkPoints hface hld hpts
  have h1 : face = exampleFace := (Option.some.inj hface).symm
  subst h1
  have h2 : landmarkData = ⟨some examplePoints⟩ := (Option.some.inj hld).symm
  subst h2
  have h3 : landmarkPoints = examplePoints := (Option.some.inj hpts).symm
  subst h3
  decide

/-! ## The claims about `Tick` -/

/-- C5: on a tick whose landmark read reaches a successful `QueryPoints`, the
published landmark list has exactly one entry per returned point whose alias
is none of 0, 30, 31 and whose raw world z is non-zero, in the order the
points were returned, each with the alias of its point as identifier; the
other points contribute nothing. This holds of every tick that completes, and
a safe tick does complete. -/
theorem Tick_publishes_kept_points {R S : Type} [FloatOps R] (d : Deps R S)
    (s : ARealSenseActor R S) (r : FrameResponses R) (face : Face R)
    (landmarkData : LandmarksData R) (landmarkPoints : List (LandmarkPoint R))
    (hacq : r.AcquireFrame = STATUS_NO_ERROR) (hupd : r.Update = STATUS_NO_ERROR)
    (hn : r.QueryNumberOfDetectedFaces > 0) (hface : r.QueryFaceByIndex = some face)
    (hld : face.QueryLandmarks = some landmarkData)
    (hpts : landmarkData.QueryPoints = some landmarkPoints) :
    (Tick.Safe s r → ∃ t, Tick d s r = some t) ∧
    ∀ t, Tick d s r = some t →
      t.m_landmarks.map (fun l => l.identifier) =
        (landmarkPoints.filter (fun p =>
          decide (p.source_alias ≠ 0 ∧ p.source_alias ≠ 30 ∧ p.source_alias ≠ 31) &&
            FloatOps.neZero p.world.z)).map (fun p => p.source_alias) := by
  refine ⟨Tick_defined d s r, ?_⟩
  intro t ht
  obtain ⟨s2, hs2, rfl⟩ := Tick_some_of_face d s t r face hacq hupd hn hface ht
  obtain ⟨s1, -, hstep⟩ := Tick.face_some d _ s2 face hs2
  rw [hld] at hstep
  simp only [Tick.landmarks, hpts] at hstep
  have hloop := Tick.landmarkLoop_identifiers d landmarkPoints _ s2 hstep
  rw [(Tick.tail_fields s2).1, hloop]
  simp

/-- C5, evaluated: of the six points of the example frame the tick publishes
the two kept ones, aliases 5 and 2, in that order. -/
theorem Tick_publishes_kept_points_witness :
    Tick exampleDeps exampleActor exampleFrame = some exampleAfterTick ∧
      exampleAfterTick.m_landmarks.map (fun l => l.identifier) = [5, 2] :=
  ⟨by decide,
    (Tick_publishes_kept_points exampleDeps exampleActor exampleFrame exampleFace
      ⟨some examplePoints⟩ examplePoints (by decide) (by decide) (by decide) rfl rfl rfl).2
      exampleAfterTick (by decide)⟩

/-- C6: when the landmark read succeeds, the tick yields the same state, and
so publishes the same landmark list, whatever the landmark list before the
tick (all else equal): no entry is carried over. When the landmark read fails
at any stage (frame acquire, output update, no face, NULL face, NULL landmark
data, `QueryPoints` false), the published list of a completed tick is the list
before the tick. A safe tick does complete. -/
theorem Tick_landmarks_replaced_or_kept {R S : Type} [FloatOps R] (d : Deps R S)
    (s : ARealSenseActor R S) (r : FrameResponses R) :
    (∀ face landmarkData landmarkPoints, r.AcquireFrame = STATUS_NO_ERROR →
      r.Update = STATUS_NO_ERROR → r.QueryNumberOfDetectedFaces > 0 →
      r.QueryFaceByIndex = some face → face.QueryLandmarks = some landmarkData →
      landmarkData.QueryPoints = some landmarkPoints →
      ∀ prior, Tick d { s with m_landmarks := prior } r = Tick d s r) ∧
    (∀ t, Tick d s r = some t →
      (r.AcquireFrame ≠ STATUS_NO_ERROR ∨ r.Update ≠ STATUS_NO_ERROR ∨
        r.QueryNumberOfDetectedFaces ≤ 0 ∨ r.QueryFaceByIndex = none ∨
        (∃ face, r.QueryFaceByIndex = some face ∧ face.QueryLandmarks = none) ∨
        (∃ face landmarkData, r.QueryFaceByIndex = some face ∧
          face.QueryLandmarks = some landmarkData ∧ landmarkData.QueryPoints = none)) →
      t.m_landmarks = s.m_landmarks) ∧
    (Tick.Safe s r → ∃ t, Tick d s r = some t) := by
  refine ⟨?_, ?_, Tick_defined d s r⟩
  · intro face landmarkData landmarkPoints hacq hupd hn hface hld hpts prior
    exact Tick_prior d s r face landmarkData landmarkPoints hacq hupd hn hface hld hpts prior
  · intro t ht hfail
    rcases Tick_landmarks_cases d s t r ht with hk | ⟨hacq, hupd, hn, face, ld, pts, hface, hld, hpts⟩
    · exact hk
    · exfalso
      rcases hfail with h | h | h | h | ⟨face2, hface2, h⟩ | ⟨face2, ld2, hface2, hld2, h⟩
      · exact h hacq
      · exact h hupd
      · omega
      · rw [hface] at h; cases h
      · rw [hface] at hface2
        cases hface2
        rw [hld] at h; cases h
      · rw [hface] at hface2
        cases hface2
        rw [hld] at hld2
        cases hld2
        rw [hpts] at h; cases h

/-- C6, evaluated: the tick on the example frame from a state that already
holds three landmarks publishes the two landmarks it publishes from the empty
list, and the tick on the frame whose `QueryPoints` returns false keeps the
three landmarks. -/
theorem Tick_landmarks_replaced_or_kept_witness :
    Tick exampleDeps { exampleActor with m_landmarks := exampleLandmarks } exampleFrame =
        Tick exampleDeps exampleActor exampleFrame ∧
      Tick exampleDeps exampleActor exampleFrame = some exampleAfterTick ∧
      ((Tick exampleDeps { exampleActor with m_landmarks := exampleLandmarks }
          exampleFrameNoPoints).map (fun t => t.m_landmarks)) = some exampleLandmarks :=
  ⟨(Tick_landmarks_replaced_or_kept exampleDeps exampleActor exampleFrame).1 exampleFace
      ⟨some examplePoints⟩ examplePoints (by decide) (by decide) (by decide) rfl rfl rfl
      exampleLandmarks,
    by decide, by decide⟩

/-- C7: on a tick that reaches pose extraction, a failed rotation query leaves
the published head rotation as it was and a failed position query leaves the
published head location as it was, each whatever the outcome of the other
query; a successful rotation query sets the rotation to the converted
quaternion and a successful position query sets the location to the converted
(and, with smoothing, smoothed) head centre. This holds of every tick that
completes, and a safe tick does complete. -/
theorem Tick_pose_fields_independent {R S : Type} [FloatOps R] (d : Deps R S)
    (s : ARealSenseActor R S) (r : FrameResponses R) (face : Face R) (poseData : PoseData R)
    (hacq : r.AcquireFrame = STATUS_NO_ERROR) (hupd : r.Update = STATUS_NO_ERROR)
    (hn : r.QueryNumberOfDetectedFaces > 0) (hface : r.QueryFaceByIndex = some face)
    (hpose : face.QueryPose = some poseData) :
    (Tick.Safe s r → ∃ t, Tick d s r = some t) ∧
    ∀ t, Tick d s r = some t →
      (poseData.QueryPoseQuaternion = none → t.m_headRotation = s.m_headRotation) ∧
      (poseData.QueryHeadPosition = none → t.m_headLocation = s.m_headLocation) ∧
      (∀ headRot, poseData.QueryPoseQuaternion = some headRot →
        t.m_headRotation = d.RsToUnrealQuat headRot) ∧
      (∀ headCenter, poseData.QueryHeadPosition = some headCenter →
        (s.m_smoothData = false ∧ t.m_headLocation = d.RsToUnrealVector headCenter) ∨
        (s.m_smoothData = true ∧ ∃ smoother, s.m_headSmoother = some smoother ∧
          t.m_headLocation = d.RsToUnrealVector (d.SmoothValue smoother headCenter).1)) := by
  refine ⟨Tick_defined d s r, ?_⟩
  intro t ht
  obtain ⟨s2, hs2, rfl⟩ := Tick_some_of_face d s t r face hacq hupd hn hface ht
  obtain ⟨s1, hs1, hstep⟩ := Tick.face_some d _ s2 face hs2
  rw [hpose] at hs1
  obtain ⟨hloc, hrot⟩ := Tick.landmarkStep_keeps_head d s1 s2 face.QueryLandmarks hstep
  have hfields := Tick.pose_fields d _ s1 poseData hs1
  rw [(Tick.tail_fields s2).2.1, (Tick.tail_fields s2).2.2, hloc, hrot]
  exact hfields

/-- C7, evaluated: in the example frame the rotation query succeeds and the
position query fails; the tick sets the head rotation to the converted
quaternion and keeps the head location. -/
theorem Tick_pose_fields_independent_witness :
    Tick exampleDeps exampleActor exampleFrame = some exampleAfterTick ∧
      exampleAfterTick.m_headLocation = exampleActor.m_headLocation ∧
      exampleAfterTick.m_headRotation = ⟨3, 1, 2, 4⟩ :=
  have h := (Tick_pose_fields_independent exampleDeps exampleActor exampleFrame exampleFace
    examplePose (by decide) (by decide) (by decide) rfl rfl).2 exampleAfterTick (by decide)
  ⟨by decide, h.2.1 rfl, h.2.2.1 ⟨1, 2, 3, 4⟩ rfl⟩

/-- C8 as stated fails: a tick whose frame acquire fails can change a published
flag. The actor left by the example tick holds `m_shouldCaptureDefault = true`
while its alert handler, reset by that tick, holds `false`; the next tick, on
which `AcquireFrame` returns -1, copies the handler flag and publishes
`false`. -/
theorem Tick_timeout_changes_capture_flag :
    exampleAfterTick.m_manager = true ∧
      exampleFrameTimeout.AcquireFrame ≠ STATUS_NO_ERROR ∧
      Tick exampleDeps exampleAfterTick exampleFrameTimeout = some exampleAfterTimeout ∧
      exampleAfterTimeout.m_shouldCaptureDefault ≠ exampleAfterTick.m_shouldCaptureDefault := by
  decide

/-- C8, amended: a tick whose frame acquire fails leaves the landmark list, the
head location and the head rotation as they were; the should-capture-default
flag takes the value of the alert handler flag, and the should-mask-be-hidden
flag takes the value of the alert handler flag when hiding on a lost face is
enabled and is unchanged otherwise. This holds of every such tick that
completes, and the tick does complete when the manager is non-NULL. -/
theorem Tick_acquire_failure {R S : Type} [FloatOps R] (d : Deps R S)
    (s : ARealSenseActor R S) (r : FrameResponses R)
    (hacq : r.AcquireFrame ≠ STATUS_NO_ERROR) :
    (s.m_manager = true → ∃ t, Tick d s r = some t) ∧
    ∀ t, Tick d s r = some t →
      t.m_landmarks = s.m_landmarks ∧
      t.m_headLocation = s.m_headLocation ∧
      t.m_headRotation = s.m_headRotation ∧
      t.m_shouldCaptureDefault = s.m_alertHandler.shouldCaptureDefault ∧
      t.m_shouldMaskBeHidden =
        (if s.m_hideOnLost = true then s.m_alertHandler.shouldMaskBeHidden
         else s.m_shouldMaskBeHidden) := by
  have hrun : s.m_manager = true →
      Tick d s r = some (Tick.tail { s with m_status := r.AcquireFrame }) := by
    intro hm
    have hm2 : ¬ s.m_manager = false := by rw [hm]; decide
    unfold Tick
    rw [if_neg hm2]
    show Option.map Tick.tail (if r.AcquireFrame = STATUS_NO_ERROR then _ else _) = _
    rw [if_neg hacq]
    rfl
  refine ⟨fun hm => ⟨_, hrun hm⟩, ?_⟩
  intro t ht
  have hm : s.m_manager = true := by
    cases hm : s.m_manager
    · simp [Tick, hm] at ht
    · rfl
  have heq : t = Tick.tail { s with m_status := r.AcquireFrame } :=
    Option.some.inj (ht.symm.trans (hrun hm))
  have h1 := Tick.tail_fields { s with m_status := r.AcquireFrame }
  have h2 := Tick.tail_flags { s with m_status := r.AcquireFrame }
  rw [heq]
  exact ⟨h1.1, h1.2.1, h1.2.2, h2.1, h2.2⟩

/-- C8 amended, evaluated on the tick after the example tick, whose frame
acquire times out: the landmarks and the head pose stay, the capture flag
becomes that of the handler. -/
theorem Tick_acquire_failure_witness :
    exampleFrameTimeout.AcquireFrame ≠ STATUS_NO_ERROR ∧
      Tick exampleDeps exampleAfterTick exampleFrameTimeout = some exampleAfterTimeout ∧
      exampleAfterTimeout.m_landmarks = exampleAfterTick.m_landmarks ∧
      exampleAfterTimeout.m_headLocation = exampleAfterTick.m_headLocation ∧
      exampleAfterTimeout.m_headRotation = exampleAfterTick.m_headRotation ∧
      exampleAfterTimeout.m_shouldCaptureDefault = false ∧
      exampleAfterTimeout.m_shouldMaskBeHidden = false :=
  ⟨by decide, by decide,
    (Tick_acquire_failure exampleDeps exampleAfterTick exampleFrameTimeout (by decide)).2
      exampleAfterTimeout (by decide)⟩

/-- A completed tick keeps the smoothing toggle and the number of landmark
smoothers, and when every landmark smoother exists before it, every one exists
after it: the conditions under which the smoother lookup is in range carry
over from tick to tick. -/
theorem Tick_keeps_smoothers {R S : Type} [FloatOps R] (d : Deps R S)
    (s t : ARealSenseActor R S) (r : FrameResponses R) (h : Tick d s r = some t) :
    t.m_smoothData = s.m_smoothData ∧
      t.m_landmarkSmoothers.length = s.m_landmarkSmoothers.length ∧
      ((∀ smoother ∈ s.m_landmarkSmoothers, smoother ≠ none) →
        ∀ smoother ∈ t.m_landmarkSmoothers, smoother ≠ none) := by
  have htail : ∀ u : ARealSenseActor R S, (Tick.tail u).m_smoothData = u.m_smoothData ∧
      (Tick.tail u).m_landmarkSmoothers = u.m_landmarkSmoothers := by
    intro u
    unfold Tick.tail
    cases u.m_hideOnLost <;> simp
  have hface : ∀ (u v : ARealSenseActor R S) (face : Face R), Tick.face d u face = some v →
      v.m_smoothData = u.m_smoothData ∧
      v.m_landmarkSmoothers.length = u.m_landmarkSmoothers.length ∧
      ((∀ smoother ∈ u.m_landmarkSmoothers, smoother ≠ none) →
        ∀ smoother ∈ v.m_landmarkSmoothers, smoother ≠ none) := by
    intro u v face hv
    obtain ⟨u1, hu1, hstep⟩ := Tick.face_some d u v face hv
    obtain ⟨-, hk1, hk2⟩ := Tick.poseStep_keeps d u u1 face.QueryPose hu1
    rw [← hk1, ← hk2]
    cases hld : face.QueryLandmarks with
    | none =>
      rw [hld] at hstep
      simp only [Option.some.injEq] at hstep
      subst hstep; exact ⟨rfl, rfl, fun hall => hall⟩
    | some landmarkData =>
      rw [hld] at hstep
      simp only [Tick.landmarks] at hstep
      split at hstep
      · have hf := Tick.landmarkLoop_frame d _ _ v hstep
        have hs := Tick.landmarkLoop_smoothers d _ _ v hstep
        exact ⟨by rw [hf], hs.1, hs.2⟩
      · simp only [Option.some.injEq] at hstep
        subst hstep; exact ⟨rfl, rfl, fun hall => hall⟩
  unfold Tick at h
  split at h
  · cases h
  · simp only [Option.map_eq_some'] at h
    obtain ⟨s2, hs2, rfl⟩ := h
    rw [(htail s2).1, (htail s2).2]
    split at hs2
    · unfold Tick.frame at hs2
      split at hs2
      · cases hs2
      · split at hs2
        · cases hs2
        · simp only at hs2
          split at hs2
          · split at hs2
            · split at hs2
              · have hkeep := hface _ s2 _ hs2
                exact hkeep
              · simp only [Option.some.injEq] at hs2
                subst hs2; exact ⟨rfl, rfl, fun hall => hall⟩
            · simp only [Option.some.injEq] at hs2
              subst hs2; exact ⟨rfl, rfl, fun hall => hall⟩
          · simp only [Option.some.injEq] at hs2
            subst hs2; exact ⟨rfl, rfl, fun hall => hall⟩
    · simp only [Option.some.injEq] at hs2
      subst hs2; exact ⟨rfl, rfl, fun hall => hall⟩

/-! ## Properties of `BeginPlay` -/

/-- A sequence of two parts completes without a termination request exactly
when both parts do. -/
theorem Run.andThen_eq_ok {α β : Type} (a : Run α) (f : α → Run β) (t : β) :
    a.andThen f = ⟨[], some t⟩ ↔ ∃ x, a = ⟨[], some x⟩ ∧ f x = ⟨[], some t⟩ := by
  obtain ⟨quits, state⟩ := a
  cases state with
  | none => simp [Run.andThen]
  | some x =>
    constructor
    · intro h
      simp only [Run.andThen, Run.mk.injEq, List.append_eq_nil] at h
      obtain ⟨⟨hq, hfq⟩, hfs⟩ := h
      refine ⟨x, by rw [hq], ?_⟩
      cases hfx : f x with
      | mk q2 s2 =>
        rw [hfx] at hfq hfs
        simp only at hfq hfs
        rw [hfq, hfs]
    · rintro ⟨y, hy, hfy⟩
      simp only [Run.mk.injEq, Option.some.injEq] at hy
      obtain ⟨rfl, rfl⟩ := hy
      simp [Run.andThen, hfy]

/-- The guarded termination request issues nothing exactly when the guarded
failure did not happen. -/
theorem Run.quitWhen_eq_ok {α : Type} (failed : Bool) (site : QuitSite) (a x : α) :
    Run.quitWhen failed site a = ⟨[], some x⟩ ↔ failed = false ∧ a = x := by
  cases failed <;> simp [Run.quitWhen]

/-- A call through a pointer completes exactly when the pointer is non-NULL. -/
theorem Run.deref_eq_ok {α : Type} (p : Bool) (a x : α) :
    Run.deref p a = ⟨[], some x⟩ ↔ p = true ∧ a = x := by
  cases p <;> simp [Run.deref]

/-- The loop that creates the landmark smoothers, when it issues no
termination request, has appended one existing smoother per round. -/
theorem BeginPlay.landmarkSmoothers_ok {R S : Type} (r : StartupResponses S) (remaining i : Nat)
    (s t : ARealSenseActor R S)
    (h : BeginPlay.landmarkSmoothers r remaining i s = ⟨[], some t⟩) :
    t.m_smoothData = s.m_smoothData ∧
      t.m_landmarkSmoothers.length = s.m_landmarkSmoothers.length + remaining ∧
      ((∀ smoother ∈ s.m_landmarkSmoothers, smoother ≠ none) →
        ∀ smoother ∈ t.m_landmarkSmoothers, smoother ≠ none) := by
  induction remaining generalizing i s with
  | zero =>
    simp only [BeginPlay.landmarkSmoothers, Run.mk.injEq, Option.some.injEq, true_and] at h
    subst h
    exact ⟨rfl, rfl, fun hall => hall⟩
  | succ n ih =>
    simp only [BeginPlay.landmarkSmoothers, Run.andThen_eq_ok, Run.quitWhen_eq_ok] at h
    obtain ⟨x, ⟨hsome, rfl⟩, hrest⟩ := h
    obtain ⟨h1, h2, h3⟩ := ih _ _ hrest
    refine ⟨h1, ?_, ?_⟩
    · rw [h2]; simp only [List.length_append, List.length_singleton]; omega
    · intro hall
      apply h3
      intro smoother hmem
      simp only [List.mem_append, List.mem_singleton] at hmem
      rcases hmem with hmem | rfl
      · exact hall smoother hmem
      · intro hc
        rw [hc] at hsome
        cases hsome

/-- The smoother block of the start-up, with smoothing enabled and no
termination request, has appended `NUM_LANDMARKS` existing landmark smoothers. -/
theorem BeginPlay.smoothers_ok {R S : Type} (d : Deps R S) (r : StartupResponses S)
    (s t : ARealSenseActor R S) (hsmooth : s.m_smoothData = true)
    (h : BeginPlay.smoothers d r s = ⟨[], some t⟩) :
    t.m_smoothData = true ∧
      t.m_landmarkSmoothers.length = s.m_landmarkSmoothers.length + d.NUM_LANDMARKS.toNat ∧
      ((∀ smoother ∈ s.m_landmarkSmoothers, smoother ≠ none) →
        ∀ smoother ∈ t.m_landmarkSmoothers, smoother ≠ none) := by
  unfold BeginPlay.smoothers at h
  rw [if_pos hsmooth] at h
  simp only [Run.andThen_eq_ok, Run.quitWhen_eq_ok, Run.deref_eq_ok] at h
  obtain ⟨y1, ⟨-, rfl⟩, y2, ⟨-, rfl⟩, y3, ⟨-, rfl⟩, hloop⟩ := h
  obtain ⟨h1, h2, h3⟩ := BeginPlay.landmarkSmoothers_ok r _ 0 _ t hloop
  exact ⟨h1.trans hsmooth, h2, h3⟩

/-- A start-up with smoothing enabled that completes without a termination
request has appended `NUM_LANDMARKS` existing landmark smoothers and left
smoothing enabled. -/
theorem BeginPlay_ok_smoothers {R S : Type} (d : Deps R S) (r : StartupResponses S)
    (s t : ARealSenseActor R S) (hsmooth : s.m_smoothData = true)
    (h : BeginPlay d r s = ⟨[], some t⟩) :
    t.m_smoothData = true ∧
      t.m_landmarkSmoothers.length = s.m_landmarkSmoothers.length + d.NUM_LANDMARKS.toNat ∧
      ((∀ smoother ∈ s.m_landmarkSmoothers, smoother ≠ none) →
        ∀ smoother ∈ t.m_landmarkSmoothers, smoother ≠ none) := by
  simp only [BeginPlay, Run.andThen_eq_ok, Run.quitWhen_eq_ok, Run.deref_eq_ok] at h
  obtain ⟨x1, ⟨-, rfl⟩, x2, ⟨-, rfl⟩, x3, ⟨-, rfl⟩, x4, hsm, x5, ⟨-, rfl⟩, x6, ⟨-, rfl⟩,
    x7, ⟨-, rfl⟩, x8, ⟨-, rfl⟩, x9, ⟨-, rfl⟩, x10, ⟨-, rfl⟩, x11, ⟨-, rfl⟩, x12, ⟨-, rfl⟩,
    -, rfl⟩ := h
  have hblock := fun hs => BeginPlay.smoothers_ok d r _ x4 hs hsm
  exact hblock hsmooth

/-- The landmark smoother loop does not consult the answer of `CreateOutput`. -/
theorem BeginPlay.landmarkSmoothers_ignore_output {R S : Type} (r : StartupResponses S)
    (b : Bool) (remaining i : Nat) (s : ARealSenseActor R S) :
    BeginPlay.landmarkSmoothers { r with CreateOutput := b } remaining i s =
      BeginPlay.landmarkSmoothers r remaining i s := by
  induction remaining generalizing i s with
  | zero => rfl
  | succ n ih =>
    simp only [BeginPlay.landmarkSmoothers]
    congr 1
    funext x
    exact ih _ x

/-- The requests of a sequence depend on its second part only through the
requests of that part. -/
theorem Run.andThen_quits_congr {α β : Type} (a : Run α) (f g : α → Run β)
    (h : ∀ x, (f x).quits = (g x).quits) : (a.andThen f).quits = (a.andThen g).quits := by
  obtain ⟨quits, state⟩ := a
  cases state with
  | none => rfl
  | some x => simp [Run.andThen, h x]

/-- The termination requests of `BeginPlay` do not depend on whether
`CreateOutput` returned NULL: no statement tests the output buffer. -/
theorem BeginPlay_quits_ignore_output {R S : Type} (d : Deps R S) (r : StartupResponses S)
    (b : Bool) (s : ARealSenseActor R S) :
    (BeginPlay d { r with CreateOutput := b } s).quits = (BeginPlay d r s).quits := by
  have hsm : ∀ u : ARealSenseActor R S,
      BeginPlay.smoothers d { r with CreateOutput := b } u = BeginPlay.smoothers d r u := by
    intro u
    simp only [BeginPlay.smoothers, BeginPlay.landmarkSmoothers_ignore_output]
  simp only [BeginPlay, hsm]
  iterate 10 (apply Run.andThen_quits_congr; intro _)
  cases r.CreateActiveConfiguration <;> simp [Run.andThen, Run.quitWhen, Run.deref]

/-- One round of the landmark loop with smoothing enabled, on a point that
passes the test of the loop and whose own smoother, the one at index
`alias - 1`, exists: the round smooths the location with that smoother,
advances that smoother and no other, and appends the landmark. -/
theorem Tick.landmarkLoop_smoothed_round {R S : Type} [FloatOps R] (d : Deps R S)
    (s : ARealSenseActor R S) (p : LandmarkPoint R) (rest : List (LandmarkPoint R))
    (smoother : S) (hsmooth : s.m_smoothData = true) (h0 : 0 ≤ p.source_alias)
    (hkeep : p.source_alias ≠ 0 ∧ p.source_alias ≠ 30 ∧ p.source_alias ≠ 31 ∧
      FloatOps.neZero p.world.z = true)
    (hget : s.m_landmarkSmoothers.get? (p.source_alias - 1).toNat = some (some smoother)) :
    Tick.landmarkLoop d (p :: rest) s =
      Tick.landmarkLoop d rest
        { s with
          m_landmarkSmoothers :=
            s.m_landmarkSmoothers.set (p.source_alias - 1).toNat
              (some (d.SmoothValue smoother p.world).2)
          m_landmarks :=
            s.m_landmarks ++
              [{ location :=
                   (d.RsToUnrealVector (d.SmoothValue smoother p.world).1).scale
                     FloatOps.thousand
                 identifier := p.source_alias }] } := by
  have hidx : ¬ p.source_alias - 1 < 0 := by have := hkeep.1; omega
  have hlookup : Tick.smoothLandmark d s.m_landmarkSmoothers p.source_alias p.world =
      some ((d.SmoothValue smoother p.world).1,
        s.m_landmarkSmoothers.set (p.source_alias - 1).toNat
          (some (d.SmoothValue smoother p.world).2)) := by
    unfold Tick.smoothLandmark
    simp only [hidx, if_false, hget]
  rw [Tick.landmarkLoop, if_pos hkeep, if_pos hsmooth, hlookup]

/-! ## The claims about `BeginPlay` -/

/-- C9, evaluated where the code departs from it: when `CreateOutput` returns
NULL and every other call succeeds, `BeginPlay` runs to its end without any
termination request and leaves the actor with a NULL output buffer; when
`CreateActiveConfiguration` returns NULL it issues no request either before it
calls through the NULL configuration. The sibling resource checked two
statements earlier behaves as claimed: a NULL face analyzer is answered by a
termination request. -/
theorem BeginPlay_null_output_or_config_no_quit :
    BeginPlay exampleDeps exampleStartupNoOutput exampleFresh =
        ⟨[], some { exampleActor with m_outputData := false }⟩ ∧
      BeginPlay exampleDeps exampleStartupNoConfig exampleFresh = ⟨[], none⟩ ∧
      BeginPlay exampleDeps exampleStartupNoAnalyzer exampleFresh =
        ⟨[QuitSite.faceAnalyzer], none⟩ := by
  decide

/-- C10: after a start-up with smoothing enabled that began with no landmark
smoothers and completed without a termination request, the actor holds exactly
`NUM_LANDMARKS` landmark smoothers; for every point kept by the test of the
tick whose alias is between 0 and `NUM_LANDMARKS`, the index `alias - 1` lies
in `[0, NUM_LANDMARKS)` and the smoother there exists; kept points with
different aliases index different smoothers; with smoothing enabled the
landmark loop of a tick over such points, from any state that has as many
landmark smoothers, all existing (as every later tick has, by
`Tick_keeps_smoothers`), completes, none of its lookups being out of range;
and from any such state the round of the loop on a kept point smooths its
location with the smoother at its own index `alias - 1`, advances that
smoother, and leaves the smoother of every kept point of another alias as it
was, so two kept points with different aliases never use the same smoother. -/
theorem BeginPlay_smoothers_cover_aliases {R S : Type} [FloatOps R] (d : Deps R S)
    (r0 : StartupResponses S) (s0 s1 : ARealSenseActor R S)
    (hsmooth : s0.m_smoothData = true) (hempty : s0.m_landmarkSmoothers = [])
    (hrun : BeginPlay d r0 s0 = ⟨[], some s1⟩) :
    s1.m_landmarkSmoothers.length = d.NUM_LANDMARKS.toNat ∧
    (∀ p : LandmarkPoint R, 0 ≤ p.source_alias → p.source_alias ≤ d.NUM_LANDMARKS →
      (p.source_alias ≠ 0 ∧ p.source_alias ≠ 30 ∧ p.source_alias ≠ 31 ∧
        FloatOps.neZero p.world.z = true) →
      0 ≤ p.source_alias - 1 ∧ p.source_alias - 1 < d.NUM_LANDMARKS ∧
        (p.source_alias - 1).toNat < s1.m_landmarkSmoothers.length ∧
        ∃ smoother,
          s1.m_landmarkSmoothers.get? (p.source_alias - 1).toNat = some (some smoother)) ∧
    (∀ p q : LandmarkPoint R, 0 ≤ p.source_alias → 0 ≤ q.source_alias →
      (p.source_alias ≠ 0 ∧ p.source_alias ≠ 30 ∧ p.source_alias ≠ 31 ∧
        FloatOps.neZero p.world.z = true) →
      (q.source_alias ≠ 0 ∧ q.source_alias ≠ 30 ∧ q.source_alias ≠ 31 ∧
        FloatOps.neZero q.world.z = true) →
      p.source_alias ≠ q.source_alias →
      (p.source_alias - 1).toNat ≠ (q.source_alias - 1).toNat) ∧
    (∀ (s : ARealSenseActor R S) (landmarkPoints : List (LandmarkPoint R)),
      s.m_smoothData = true →
      s.m_landmarkSmoothers.length = s1.m_landmarkSmoothers.length →
      (∀ smoother ∈ s.m_landmarkSmoothers, smoother ≠ none) →
      (∀ p ∈ landmarkPoints, 0 ≤ p.source_alias ∧ p.source_alias ≤ d.NUM_LANDMARKS) →
      ∃ t, Tick.landmarkLoop d landmarkPoints s = some t) ∧
    (∀ (s : ARealSenseActor R S) (p : LandmarkPoint R) (rest : List (LandmarkPoint R)),
      s.m_smoothData = true →
      s.m_landmarkSmoothers.length = s1.m_landmarkSmoothers.length →
      (∀ smoother ∈ s.m_landmarkSmoothers, smoother ≠ none) →
      0 ≤ p.source_alias → p.source_alias ≤ d.NUM_LANDMARKS →
      (p.source_alias ≠ 0 ∧ p.source_alias ≠ 30 ∧ p.source_alias ≠ 31 ∧
        FloatOps.neZero p.world.z = true) →
      ∃ smoother,
        s.m_landmarkSmoothers.get? (p.source_alias - 1).toNat = some (some smoother) ∧
        Tick.landmarkLoop d (p :: rest) s =
          Tick.landmarkLoop d rest
            { s with
              m_landmarkSmoothers :=
                s.m_landmarkSmoothers.set (p.source_alias - 1).toNat
                  (some (d.SmoothValue smoother p.world).2)
              m_landmarks :=
                s.m_landmarks ++
                  [{ location :=
                       (d.RsToUnrealVector (d.SmoothValue smoother p.world).1).scale
                         FloatOps.thousand
                     identifier := p.source_alias }] } ∧
        ∀ q : LandmarkPoint R, 0 ≤ q.source_alias →
          (q.source_alias ≠ 0 ∧ q.source_alias ≠ 30 ∧ q.source_alias ≠ 31 ∧
            FloatOps.neZero q.world.z = true) →
          q.source_alias ≠ p.source_alias →
          (s.m_landmarkSmoothers.set (p.source_alias - 1).toNat
              (some (d.SmoothValue smoother p.world).2)).get? (q.source_alias - 1).toNat =
            s.m_landmarkSmoothers.get? (q.source_alias - 1).toNat) := by
  obtain ⟨-, hlen, hall⟩ := BeginPlay_ok_smoothers d r0 s0 s1 hsmooth hrun
  rw [hempty] at hlen hall
  simp only [List.length_nil, Nat.zero_add] at hlen
  have hall2 : ∀ smoother ∈ s1.m_landmarkSmoothers, smoother ≠ none :=
    hall (fun _ hmem => absurd hmem (List.not_mem_nil _))
  refine ⟨hlen, ?_, ?_, ?_, ?_⟩
  · intro p h0 hN hkeep
    have hne := hkeep.1
    have hlt : (p.source_alias - 1).toNat < s1.m_landmarkSmoothers.length := by
      rw [hlen]; omega
    refine ⟨by omega, by omega, hlt, ?_⟩
    have hmem := List.get_mem s1.m_landmarkSmoothers (p.source_alias - 1).toNat hlt
    cases hx : s1.m_landmarkSmoothers.get ⟨(p.source_alias - 1).toNat, hlt⟩ with
    | none => exact absurd hx (hall2 _ hmem)
    | some smoother => exact ⟨smoother, by rw [List.get?_eq_get hlt, hx]⟩
  · intro p q hp hq hkp hkq hne
    have h1 := hkp.1
    have h2 := hkq.1
    omega
  · intro s pts hs hsm hex hrange
    apply Tick.landmarkLoop_defined d pts s
    intro _
    rw [hsm]
    refine ⟨hex, fun p hp => ⟨(hrange p hp).1, ?_⟩⟩
    have := (hrange p hp).2
    have h0 := (hrange p hp).1
    rw [hlen]
    omega
  · intro s p rest hs hsl hex h0 hN hkeep
    have hne := hkeep.1
    have hlt : (p.source_alias - 1).toNat < s.m_landmarkSmoothers.length := by
      rw [hsl, hlen]; omega
    obtain ⟨smoother, hget⟩ : ∃ smoother,
        s.m_landmarkSmoothers.get? (p.source_alias - 1).toNat = some (some smoother) := by
      have hmem := List.get_mem s.m_landmarkSmoothers (p.source_alias - 1).toNat hlt
      cases hx : s.m_landmarkSmoothers.get ⟨(p.source_alias - 1).toNat, hlt⟩ with
      | none => exact absurd hx (hex _ hmem)
      | some smoother => exact ⟨smoother, by rw [List.get?_eq_get hlt, hx]⟩
    refine ⟨smoother, hget,
      Tick.landmarkLoop_smoothed_round d s p rest smoother hs h0 hkeep hget, ?_⟩
    intro q hq0 hkq hqp
    have hq := hkq.1
    have hidx : (p.source_alias - 1).toNat ≠ (q.source_alias - 1).toNat := by omega
    simp only [List.get?_eq_getElem?]
    exact List.getElem?_set_ne hidx

/-- C10, evaluated: the example start-up leaves 32 landmark smoothers, the kept
point of alias 5 indexes the existing smoother 4, the kept points of aliases 5
and 2 index different smoothers, and the landmark loop over the points of the
example frame completes. In the actor left by the example tick, where the
smoothers 1 and 4 have taken one sample and the others none, the round on a
point of alias 5 smooths it with smoother 4 (the location is shifted by one
sample) and advances smoother 4 alone; a following point of alias 3 is smoothed
by the untouched smoother 2. -/
theorem BeginPlay_smoothers_cover_aliases_witness :
    (exampleFresh.m_smoothData = true ∧ exampleFresh.m_landmarkSmoothers = [] ∧
        BeginPlay exampleDeps exampleStartup exampleFresh = ⟨[], some exampleActor⟩) ∧
      exampleActor.m_landmarkSmoothers.length = 32 ∧
      ((0 : Int) ≤ 5 - 1 ∧ (5 : Int) - 1 < 32 ∧ 4 < exampleActor.m_landmarkSmoothers.length) ∧
      ((5 : Int) - 1).toNat ≠ ((2 : Int) - 1).toNat ∧
      (Tick.landmarkLoop exampleDeps examplePoints exampleActor).isSome = true ∧
      Tick.landmarkLoop exampleDeps [⟨5, ⟨1, 2, 3⟩⟩, ⟨3, ⟨4, 5, 6⟩⟩] exampleAfterTick =
        Tick.landmarkLoop exampleDeps [⟨3, ⟨4, 5, 6⟩⟩]
          { exampleAfterTick with
            m_landmarkSmoothers := exampleAfterTick.m_landmarkSmoothers.set 4 (some 2)
            m_landmarks := exampleAfterTick.m_landmarks ++ [⟨⟨3000, 2000, 2000⟩, 5⟩] } ∧
      (exampleAfterTick.m_landmarkSmoothers.set 4 (some 2)).get? 2 =
        exampleAfterTick.m_landmarkSmoothers.get? 2 ∧
      (Tick.landmarkLoop exampleDeps [⟨5, ⟨1, 2, 3⟩⟩, ⟨3, ⟨4, 5, 6⟩⟩] exampleAfterTick).map
          (fun t => (t.m_landmarks.drop 2, t.m_landmarkSmoothers.take 5)) =
        some ([⟨⟨3000, 2000, 2000⟩, 5⟩, ⟨⟨6000, 4000, 5000⟩, 3⟩],
          [some 0, some 1, some 1, some 0, some 2]) := by
  have h := BeginPlay_smoothers_cover_aliases exampleDeps exampleStartup exampleFresh
    exampleActor (by decide) (by decide) (by decide)
  have h5 := h.2.1 ⟨5, ⟨1, 2, 3⟩⟩ (by decide) (by decide) (by decide)
  obtain ⟨smoother, hget, hround, hother⟩ := h.2.2.2.2 exampleAfterTick ⟨5, ⟨1, 2, 3⟩⟩
    [⟨3, ⟨4, 5, 6⟩⟩] (by decide) (by decide) (by decide) (by decide) (by decide) (by decide)
  have hfour : exampleAfterTick.m_landmarkSmoothers.get? ((5 : Int) - 1).toNat =
      some (some 1) := by decide
  have hsm : smoother = 1 := Option.some.inj (Option.some.inj (hget.symm.trans hfour))
  subst hsm
  exact ⟨⟨by decide, by decide, by decide⟩, h.1, ⟨h5.1, h5.2.1, h5.2.2.1⟩,
    h.2.2.1 ⟨5, ⟨1, 2, 3⟩⟩ ⟨2, ⟨4, 5, 6⟩⟩ (by decide) (by decide) (by decide) (by decide)
      (by decide),
    by decide, hround,
    hother ⟨3, ⟨4, 5, 6⟩⟩ (by decide) (by decide) (by decide),
    by decide⟩

end Anerops
